import Mathlib

/-!
Verification of the human-friendly-ids encoding scheme.

The definitions below are a shallow embedding of `src/alphabet.rs` and
`src/id.rs`: strings are modelled as `List Char`, Rust byte lengths as
UTF-8 byte counts (`utf8Len`), the `u64` rank sum with wraparound modulo
`2 ^ 64` (release-mode overflow semantics), and fallible operations as
`Except`/`Option`. A result of `none` in `from_str`/`new_with_rng` marks
the positions where the Rust code would panic (`expect`).
-/

set_option maxRecDepth 4000

namespace HFI

/-- Error type of the library. Modelled from the spec: the error taxonomy is
`InvalidCharacter`, `TooShort`, `InvalidCheckBit` (the file src/error.rs of
this repository is not present under src/; only these three variants are
used by `alphabet.rs` and `id.rs`). -/
inductive IdError where
  | InvalidCharacter
  | TooShort
  | InvalidCheckBit
deriving DecidableEq, Repr

/-- Primary generation alphabet (23 characters), `GEN_ALPHABET` in
src/alphabet.rs. -/
def GEN_ALPHABET : List Char :=
  ['a', 'b', 'c', 'd', 'e', 'f', 'h', 'i', 'j', 'k', 'm', 'n', 'o', 'p', 'r', 's', 't', 'w', 'x',
   'y', '3', '4', 'v']

/-- Check bit alphabet (23 characters), `CHECK_ALPHABET` in src/alphabet.rs. -/
def CHECK_ALPHABET : List Char :=
  ['a', 'b', 'c', 'd', 'e', 'f', 'h', 'i', 'j', 'k', 'm', 'n', 'o', 'p', 'r', 's', 't', 'w', 'x',
   'y', '3', '4', 'v']

/-- LUT for check alphabet character lookup, `CHECK_LOOKUP` in
src/alphabet.rs: a 256-entry table initialised to 0, where the entry at the
code point of the i-th check-alphabet character is set to i.  (The const
panic branch for an alphabet larger than `u8::MAX` is dead for this
23-character alphabet and is not modelled.) -/
def CHECK_LOOKUP : List Nat :=
  (List.range CHECK_ALPHABET.length).foldl
    (fun lookup i => lookup.set (CHECK_ALPHABET.getD i 'a').toNat i)
    (List.replicate 256 0)

/-- `CHECK_LOOKUP.get(c as usize)` in `calculate_check_char`: the rank the
lookup table assigns to a character; `none` exactly when the code point is
at least 256 (outside the table). -/
def char_rank (c : Char) : Option Nat := CHECK_LOOKUP.get? c.toNat

/-- Normalize potentially ambiguous characters, `normalize_char` in
src/alphabet.rs. -/
def normalize_char (c : Char) : Char :=
  if c = '0' then 'o'
  else if c = '1' ∨ c = 'l' ∨ c = '7' then 'i'
  else if c = 'z' ∨ c = '5' ∨ c = '2' then 's'
  else if c = 'u' then 'v'
  else if c = '6' ∨ c = '8' ∨ c = '9' ∨ c = 'g' ∨ c = 'q' then 'b'
  else c

/-- Per-character lowercasing restricted to the ASCII range (characters
outside `A`..`Z` pass through unchanged).  Rust `str::to_lowercase` is a
full-Unicode, context-dependent and length-changing function; this
restriction agrees with it on ASCII and is used only in claims whose
statements involve ASCII data.  The full function is modelled below
(`LOWERCASE_TABLE`, `to_lowercase`), and the idempotence claim is proved
against that full model. -/
def lowerChar (c : Char) : Char :=
  if 65 ≤ c.toNat ∧ c.toNat ≤ 90 then Char.ofNat (c.toNat + 32) else c

/-- Leftmost, non-overlapping replacement of the two-character pattern
`a b` by the single character `r`: the semantics of Rust `str::replace`
for a two-character pattern made of one-byte characters. -/
def replacePair (a b r : Char) : List Char → List Char
  | [] => []
  | [c] => [c]
  | c :: d :: rest =>
    if c = a ∧ d = b then r :: replacePair a b r rest
    else c :: replacePair a b r (d :: rest)

/-- Normalize and replace ambiguous sequences in a string,
`normalize_string` in src/alphabet.rs: lowercase, map `normalize_char`
over every character, then rewrite `rn` to `m` and `vv` to `w`. -/
def normalize_string (s : List Char) : List Char :=
  replacePair 'v' 'v' 'w' (replacePair 'r' 'n' 'm' ((s.map lowerChar).map normalize_char))

/-- Validate a character against the check alphabet, `validate_char` in
src/alphabet.rs. -/
def validate_char (c : Char) : Except IdError Unit :=
  if c ∈ CHECK_ALPHABET then .ok () else .error .InvalidCharacter

/-- The rank-collection step of `calculate_check_char`: look every
character up in `CHECK_LOOKUP`, failing with `InvalidCharacter` on the
first character whose code point is outside the table
(`collect::<Result<Vec<_>, _>>`). -/
def mapRanks : List Char → Except IdError (List Nat)
  | [] => .ok []
  | c :: rest =>
    match char_rank c with
    | none => .error .InvalidCharacter
    | some r =>
      match mapRanks rest with
      | .error e => .error e
      | .ok rs => .ok (r :: rs)

/-- Number of values of `u64`; the rank sum is accumulated in `u64`. -/
def U64_SIZE : Nat := 2 ^ 64

/-- `u64::checked_rem`: `none` exactly when the divisor is zero. -/
def checkedRem (a b : Nat) : Option Nat := if b = 0 then none else some (a % b)

/-- Calculate expected check character for a string, `calculate_check_char`
in src/alphabet.rs: sum the table ranks of all characters in `u64`
arithmetic (wraparound modulo `2 ^ 64`), reduce modulo the alphabet size
via `checked_rem`, and index into the check alphabet. -/
def calculate_check_char (s : List Char) : Except IdError Char :=
  match mapRanks s with
  | .error e => .error e
  | .ok ranks =>
    match checkedRem ((ranks.foldl (· + ·) 0) % U64_SIZE) CHECK_ALPHABET.length with
    | none => .error .InvalidCheckBit
    | some index =>
      match CHECK_ALPHABET.get? index with
      | none => .error .InvalidCheckBit
      | some ch => .ok ch

/-- Rust `str::len`: the UTF-8 byte length of a string. -/
def utf8Len (l : List Char) : Nat := (l.map Char.utf8Size).sum

/-- Rust `str::split_at_checked` on a list of characters with a byte
index: succeeds exactly when the byte index lies on a character boundary
and within the string, returning the prefix and suffix. -/
def splitAux : List Char → Nat → Option (List Char × List Char)
  | l, 0 => some ([], l)
  | [], _ + 1 => none
  | c :: rest, n + 1 =>
    if c.utf8Size ≤ n + 1 then
      match splitAux rest (n + 1 - c.utf8Size) with
      | none => none
      | some (a, b) => some (c :: a, b)
    else none

/-- `usize::checked_sub`: `none` exactly when the subtraction would
underflow. -/
def checked_sub (a b : Nat) : Option Nat := if b ≤ a then some (a - b) else none

/-- A user-friendly identifier with check bit validation, `Id` in
src/id.rs: a wrapper around its stored (normalized) string. -/
structure Id where
  val : List Char
deriving DecidableEq, Repr

/-- `Id::as_str`: the stored string. -/
def Id.as_str (id : Id) : List Char := id.val

/-- The `Display` implementation for `Id` writes the stored string. -/
def Id.toString (id : Id) : List Char := id.val

/-- `Id::max_length` in src/id.rs: `u64::MAX / (CHECK_ALPHABET.len() - 1) + 1`. -/
def Id.max_length : Nat := (U64_SIZE - 1) / (CHECK_ALPHABET.length - 1) + 1

/-- The validation loop of `Id::from_str`: `validate_char` on every body
character, propagating the first error. -/
def validate_body : List Char → Except IdError Unit
  | [] => .ok ()
  | c :: rest =>
    match validate_char c with
    | .error e => .error e
    | .ok _ => validate_body rest

/-- `Id::from_str` in src/id.rs.  The outer `Option` marks the one panic
site (`checked_sub(1).expect("checked above")`): `none` would be a panic;
`some r` is the returned `Result`.  Normalize, reject byte length ≤ 3 as
`TooShort`, split at byte index `len - 1` (failure is `InvalidCharacter`),
compare the trailing character with the recomputed check character,
re-validate every body character, and store the normalized string. -/
def from_str (s : List Char) : Option (Except IdError Id) :=
  if utf8Len (normalize_string s) ≤ 3 then some (.error .TooShort)
  else
    match checked_sub (utf8Len (normalize_string s)) 1 with
    | none => none
    | some n =>
      match splitAux (normalize_string s) n with
      | none => some (.error .InvalidCharacter)
      | some (body, check_char) =>
        match calculate_check_char body with
        | .error e => some (.error e)
        | .ok expected =>
          if check_char ≠ [expected] then some (.error .InvalidCheckBit)
          else
            match validate_body body with
            | .error e => some (.error e)
            | .ok _ => some (.ok ⟨normalize_string s⟩)

/-- The generation loop of `Id::new_with_rng` in src/id.rs.  The random
source is modelled as a stream `rng` of draws (call counter `k`); each
draw picks `GEN_ALPHABET[rng k % 23]`, mirroring `random_range(0..23)`.
A character is re-drawn (not pushed) when it would extend the body with
`rn` or `vv`, or when it is `r` or `v` and would become the last body
character.  `fuel` bounds the number of loop iterations (the Rust `while`
loop has no bound; `none` means the fuel ran out before the body was
complete). -/
def new_with_rng_aux (len : Nat) (rng : Nat → Nat) : Nat → Nat → List Char → Option (List Char)
  | 0, _, body => if body.length < len - 1 then none else some body
  | fuel + 1, k, body =>
    if body.length < len - 1 then
      let c := GEN_ALPHABET.getD (rng k % GEN_ALPHABET.length) 'a'
      if (body.getLast? = some 'r' ∧ c = 'n') ∨ (body.getLast? = some 'v' ∧ c = 'v') then
        new_with_rng_aux len rng fuel (k + 1) body
      else if (c = 'r' ∨ c = 'v') ∧ body.length = len - 2 then
        new_with_rng_aux len rng fuel (k + 1) body
      else
        new_with_rng_aux len rng fuel (k + 1) (body ++ [c])
    else some body

/-- `Id::new_with_rng` in src/id.rs: generate a body of `len - 1`
characters, append the computed check character.  `none` on the error arm
models the `expect` panic (unreachable for generated bodies). -/
def new_with_rng (len : Nat) (rng : Nat → Nat) (fuel : Nat) : Option Id :=
  match new_with_rng_aux len rng fuel 0 [] with
  | none => none
  | some body =>
    match calculate_check_char body with
    | .error _ => none
    | .ok check_char => some ⟨body ++ [check_char]⟩

/-! ### Derived definitions used in statements -/

deriving instance DecidableEq for Except

/-- Absence of an adjacent occurrence of the two-character pattern `a b`. -/
def noPair (a b : Char) : List Char → Bool
  | c :: d :: rest => (!(c == a && d == b)) && noPair a b (d :: rest)
  | _ => true

/-- Sum of the table ranks of the characters of a string, in unbounded
natural-number arithmetic (for comparison with the wrapped `u64` sum of
`calculate_check_char`). -/
def rank_sum (s : List Char) : Nat := (s.map (fun c => (char_rank c).getD 0)).sum

/-- One normalization step on a single character: lowercase, then the
confusable map (the per-character part of `normalize_string`). -/
def normStep (c : Char) : Char := normalize_char (lowerChar c)

/-- The type invariant of `Id` stated by the spec: at least four stored
characters, a body (all but the last character) of at least three
characters, every body character in the check alphabet, and the trailing
character equal to the body's computed check character. -/
def IdInvariant (id : Id) : Prop :=
  4 ≤ id.val.length ∧ 3 ≤ id.val.dropLast.length ∧
  (∀ c ∈ id.val.dropLast, c ∈ CHECK_ALPHABET) ∧
  ∃ ch, id.val.getLast? = some ch ∧ calculate_check_char id.val.dropLast = .ok ch

/-- The invariant maintained by the generation loop of `new_with_rng`:
every character is drawn from the generation alphabet, no adjacent `rn` or
`vv` sequence occurs, the body never exceeds `len - 1` characters, and a
full-length body never ends in `r` or `v`. -/
def GenInv (len : Nat) (body : List Char) : Prop :=
  (∀ c ∈ body, c ∈ GEN_ALPHABET) ∧ noPair 'r' 'n' body = true ∧ noPair 'v' 'v' body = true ∧
  body.length ≤ len - 1 ∧
  (body.length = len - 1 → ∀ x, body.getLast? = some x → x ≠ 'r' ∧ x ≠ 'v')

/-! ### Full Unicode lowercasing, for the idempotence claim

`normalize_string` starts with Rust `str::to_lowercase`, which performs
full Unicode case mapping.  The `lowerChar` model above covers only its
ASCII restriction, which suffices for the claims whose statements involve
only ASCII data; the idempotence claim quantifies over every string, so
the definitions below model the full function: the complete lowercase
mapping table of the Unicode character database (version 14.0) — every
character whose lowercase form differs from itself, including the
multi-character expansion of `İ` (U+0130) to `i` followed by U+0307 and
mappings back into ASCII such as the Kelvin sign — and the special
treatment of `Σ`, whose lowercase form depends on the Final_Sigma context
condition.  The table is presented in five chunks so that no single list
recursion exceeds the kernel's evaluation stack. -/

/-- Chunk 0 of the Unicode lowercase mapping table. -/
def LT_0 : List (Char × List Char) := [
  ('\u0041', ['\u0061']), ('\u0042', ['\u0062']), ('\u0043', ['\u0063']),
  ('\u0044', ['\u0064']), ('\u0045', ['\u0065']), ('\u0046', ['\u0066']),
  ('\u0047', ['\u0067']), ('\u0048', ['\u0068']), ('\u0049', ['\u0069']),
  ('\u004a', ['\u006a']), ('\u004b', ['\u006b']), ('\u004c', ['\u006c']),
  ('\u004d', ['\u006d']), ('\u004e', ['\u006e']), ('\u004f', ['\u006f']),
  ('\u0050', ['\u0070']), ('\u0051', ['\u0071']), ('\u0052', ['\u0072']),
  ('\u0053', ['\u0073']), ('\u0054', ['\u0074']), ('\u0055', ['\u0075']),
  ('\u0056', ['\u0076']), ('\u0057', ['\u0077']), ('\u0058', ['\u0078']),
  ('\u0059', ['\u0079']), ('\u005a', ['\u007a']), ('\u00c0', ['\u00e0']),
  ('\u00c1', ['\u00e1']), ('\u00c2', ['\u00e2']), ('\u00c3', ['\u00e3']),
  ('\u00c4', ['\u00e4']), ('\u00c5', ['\u00e5']), ('\u00c6', ['\u00e6']),
  ('\u00c7', ['\u00e7']), ('\u00c8', ['\u00e8']), ('\u00c9', ['\u00e9']),
  ('\u00ca', ['\u00ea']), ('\u00cb', ['\u00eb']), ('\u00cc', ['\u00ec']),
  ('\u00cd', ['\u00ed']), ('\u00ce', ['\u00ee']), ('\u00cf', ['\u00ef']),
  ('\u00d0', ['\u00f0']), ('\u00d1', ['\u00f1']), ('\u00d2', ['\u00f2']),
  ('\u00d3', ['\u00f3']), ('\u00d4', ['\u00f4']), ('\u00d5', ['\u00f5']),
  ('\u00d6', ['\u00f6']), ('\u00d8', ['\u00f8']), ('\u00d9', ['\u00f9']),
  ('\u00da', ['\u00fa']), ('\u00db', ['\u00fb']), ('\u00dc', ['\u00fc']),
  ('\u00dd', ['\u00fd']), ('\u00de', ['\u00fe']), ('\u0100', ['\u0101']),
  ('\u0102', ['\u0103']), ('\u0104', ['\u0105']), ('\u0106', ['\u0107']),
  ('\u0108', ['\u0109']), ('\u010a', ['\u010b']), ('\u010c', ['\u010d']),
  ('\u010e', ['\u010f']), ('\u0110', ['\u0111']), ('\u0112', ['\u0113']),
  ('\u0114', ['\u0115']), ('\u0116', ['\u0117']), ('\u0118', ['\u0119']),
  ('\u011a', ['\u011b']), ('\u011c', ['\u011d']), ('\u011e', ['\u011f']),
  ('\u0120', ['\u0121']), ('\u0122', ['\u0123']), ('\u0124', ['\u0125']),
  ('\u0126', ['\u0127']), ('\u0128', ['\u0129']), ('\u012a', ['\u012b']),
  ('\u012c', ['\u012d']), ('\u012e', ['\u012f']), ('\u0130', ['\u0069', '\u0307']),
  ('\u0132', ['\u0133']), ('\u0134', ['\u0135']), ('\u0136', ['\u0137']),
  ('\u0139', ['\u013a']), ('\u013b', ['\u013c']), ('\u013d', ['\u013e']),
  ('\u013f', ['\u0140']), ('\u0141', ['\u0142']), ('\u0143', ['\u0144']),
  ('\u0145', ['\u0146']), ('\u0147', ['\u0148']), ('\u014a', ['\u014b']),
  ('\u014c', ['\u014d']), ('\u014e', ['\u014f']), ('\u0150', ['\u0151']),
  ('\u0152', ['\u0153']), ('\u0154', ['\u0155']), ('\u0156', ['\u0157']),
  ('\u0158', ['\u0159']), ('\u015a', ['\u015b']), ('\u015c', ['\u015d']),
  ('\u015e', ['\u015f']), ('\u0160', ['\u0161']), ('\u0162', ['\u0163']),
  ('\u0164', ['\u0165']), ('\u0166', ['\u0167']), ('\u0168', ['\u0169']),
  ('\u016a', ['\u016b']), ('\u016c', ['\u016d']), ('\u016e', ['\u016f']),
  ('\u0170', ['\u0171']), ('\u0172', ['\u0173']), ('\u0174', ['\u0175']),
  ('\u0176', ['\u0177']), ('\u0178', ['\u00ff']), ('\u0179', ['\u017a']),
  ('\u017b', ['\u017c']), ('\u017d', ['\u017e']), ('\u0181', ['\u0253']),
  ('\u0182', ['\u0183']), ('\u0184', ['\u0185']), ('\u0186', ['\u0254']),
  ('\u0187', ['\u0188']), ('\u0189', ['\u0256']), ('\u018a', ['\u0257']),
  ('\u018b', ['\u018c']), ('\u018e', ['\u01dd']), ('\u018f', ['\u0259']),
  ('\u0190', ['\u025b']), ('\u0191', ['\u0192']), ('\u0193', ['\u0260']),
  ('\u0194', ['\u0263']), ('\u0196', ['\u0269']), ('\u0197', ['\u0268']),
  ('\u0198', ['\u0199']), ('\u019c', ['\u026f']), ('\u019d', ['\u0272']),
  ('\u019f', ['\u0275']), ('\u01a0', ['\u01a1']), ('\u01a2', ['\u01a3']),
  ('\u01a4', ['\u01a5']), ('\u01a6', ['\u0280']), ('\u01a7', ['\u01a8']),
  ('\u01a9', ['\u0283']), ('\u01ac', ['\u01ad']), ('\u01ae', ['\u0288']),
  ('\u01af', ['\u01b0']), ('\u01b1', ['\u028a']), ('\u01b2', ['\u028b']),
  ('\u01b3', ['\u01b4']), ('\u01b5', ['\u01b6']), ('\u01b7', ['\u0292']),
  ('\u01b8', ['\u01b9']), ('\u01bc', ['\u01bd']), ('\u01c4', ['\u01c6']),
  ('\u01c5', ['\u01c6']), ('\u01c7', ['\u01c9']), ('\u01c8', ['\u01c9']),
  ('\u01ca', ['\u01cc']), ('\u01cb', ['\u01cc']), ('\u01cd', ['\u01ce']),
  ('\u01cf', ['\u01d0']), ('\u01d1', ['\u01d2']), ('\u01d3', ['\u01d4']),
  ('\u01d5', ['\u01d6']), ('\u01d7', ['\u01d8']), ('\u01d9', ['\u01da']),
  ('\u01db', ['\u01dc']), ('\u01de', ['\u01df']), ('\u01e0', ['\u01e1']),
  ('\u01e2', ['\u01e3']), ('\u01e4', ['\u01e5']), ('\u01e6', ['\u01e7']),
  ('\u01e8', ['\u01e9']), ('\u01ea', ['\u01eb']), ('\u01ec', ['\u01ed']),
  ('\u01ee', ['\u01ef']), ('\u01f1', ['\u01f3']), ('\u01f2', ['\u01f3']),
  ('\u01f4', ['\u01f5']), ('\u01f6', ['\u0195']), ('\u01f7', ['\u01bf']),
  ('\u01f8', ['\u01f9']), ('\u01fa', ['\u01fb']), ('\u01fc', ['\u01fd']),
  ('\u01fe', ['\u01ff']), ('\u0200', ['\u0201']), ('\u0202', ['\u0203']),
  ('\u0204', ['\u0205']), ('\u0206', ['\u0207']), ('\u0208', ['\u0209']),
  ('\u020a', ['\u020b']), ('\u020c', ['\u020d']), ('\u020e', ['\u020f']),
  ('\u0210', ['\u0211']), ('\u0212', ['\u0213']), ('\u0214', ['\u0215']),
  ('\u0216', ['\u0217']), ('\u0218', ['\u0219']), ('\u021a', ['\u021b']),
  ('\u021c', ['\u021d']), ('\u021e', ['\u021f']), ('\u0220', ['\u019e']),
  ('\u0222', ['\u0223']), ('\u0224', ['\u0225']), ('\u0226', ['\u0227']),
  ('\u0228', ['\u0229']), ('\u022a', ['\u022b']), ('\u022c', ['\u022d']),
  ('\u022e', ['\u022f']), ('\u0230', ['\u0231']), ('\u0232', ['\u0233']),
  ('\u023a', ['\u2c65']), ('\u023b', ['\u023c']), ('\u023d', ['\u019a']),
  ('\u023e', ['\u2c66']), ('\u0241', ['\u0242']), ('\u0243', ['\u0180']),
  ('\u0244', ['\u0289']), ('\u0245', ['\u028c']), ('\u0246', ['\u0247']),
  ('\u0248', ['\u0249']), ('\u024a', ['\u024b']), ('\u024c', ['\u024d']),
  ('\u024e', ['\u024f']), ('\u0370', ['\u0371']), ('\u0372', ['\u0373']),
  ('\u0376', ['\u0377']), ('\u037f', ['\u03f3']), ('\u0386', ['\u03ac']),
  ('\u0388', ['\u03ad']), ('\u0389', ['\u03ae']), ('\u038a', ['\u03af']),
  ('\u038c', ['\u03cc']), ('\u038e', ['\u03cd']), ('\u038f', ['\u03ce']),
  ('\u0391', ['\u03b1']), ('\u0392', ['\u03b2']), ('\u0393', ['\u03b3']),
  ('\u0394', ['\u03b4']), ('\u0395', ['\u03b5']), ('\u0396', ['\u03b6']),
  ('\u0397', ['\u03b7']), ('\u0398', ['\u03b8']), ('\u0399', ['\u03b9']),
  ('\u039a', ['\u03ba']), ('\u039b', ['\u03bb']), ('\u039c', ['\u03bc']),
  ('\u039d', ['\u03bd']), ('\u039e', ['\u03be']), ('\u039f', ['\u03bf']),
  ('\u03a0', ['\u03c0']), ('\u03a1', ['\u03c1']), ('\u03a3', ['\u03c3']),
  ('\u03a4', ['\u03c4']), ('\u03a5', ['\u03c5']), ('\u03a6', ['\u03c6']),
  ('\u03a7', ['\u03c7']), ('\u03a8', ['\u03c8']), ('\u03a9', ['\u03c9']),
  ('\u03aa', ['\u03ca']), ('\u03ab', ['\u03cb']), ('\u03cf', ['\u03d7']),
  ('\u03d8', ['\u03d9']), ('\u03da', ['\u03db']), ('\u03dc', ['\u03dd']),
  ('\u03de', ['\u03df']), ('\u03e0', ['\u03e1']), ('\u03e2', ['\u03e3']),
  ('\u03e4', ['\u03e5']), ('\u03e6', ['\u03e7']), ('\u03e8', ['\u03e9']),
  ('\u03ea', ['\u03eb']), ('\u03ec', ['\u03ed']), ('\u03ee', ['\u03ef']),
  ('\u03f4', ['\u03b8']), ('\u03f7', ['\u03f8']), ('\u03f9', ['\u03f2']),
  ('\u03fa', ['\u03fb']), ('\u03fd', ['\u037b']), ('\u03fe', ['\u037c']),
  ('\u03ff', ['\u037d']), ('\u0400', ['\u0450']), ('\u0401', ['\u0451']),
  ('\u0402', ['\u0452']), ('\u0403', ['\u0453']), ('\u0404', ['\u0454']),
  ('\u0405', ['\u0455']), ('\u0406', ['\u0456'])]

/-- Chunk 1 of the Unicode lowercase mapping table. -/
def LT_1 : List (Char × List Char) := [
  ('\u0407', ['\u0457']), ('\u0408', ['\u0458']), ('\u0409', ['\u0459']),
  ('\u040a', ['\u045a']), ('\u040b', ['\u045b']), ('\u040c', ['\u045c']),
  ('\u040d', ['\u045d']), ('\u040e', ['\u045e']), ('\u040f', ['\u045f']),
  ('\u0410', ['\u0430']), ('\u0411', ['\u0431']), ('\u0412', ['\u0432']),
  ('\u0413', ['\u0433']), ('\u0414', ['\u0434']), ('\u0415', ['\u0435']),
  ('\u0416', ['\u0436']), ('\u0417', ['\u0437']), ('\u0418', ['\u0438']),
  ('\u0419', ['\u0439']), ('\u041a', ['\u043a']), ('\u041b', ['\u043b']),
  ('\u041c', ['\u043c']), ('\u041d', ['\u043d']), ('\u041e', ['\u043e']),
  ('\u041f', ['\u043f']), ('\u0420', ['\u0440']), ('\u0421', ['\u0441']),
  ('\u0422', ['\u0442']), ('\u0423', ['\u0443']), ('\u0424', ['\u0444']),
  ('\u0425', ['\u0445']), ('\u0426', ['\u0446']), ('\u0427', ['\u0447']),
  ('\u0428', ['\u0448']), ('\u0429', ['\u0449']), ('\u042a', ['\u044a']),
  ('\u042b', ['\u044b']), ('\u042c', ['\u044c']), ('\u042d', ['\u044d']),
  ('\u042e', ['\u044e']), ('\u042f', ['\u044f']), ('\u0460', ['\u0461']),
  ('\u0462', ['\u0463']), ('\u0464', ['\u0465']), ('\u0466', ['\u0467']),
  ('\u0468', ['\u0469']), ('\u046a', ['\u046b']), ('\u046c', ['\u046d']),
  ('\u046e', ['\u046f']), ('\u0470', ['\u0471']), ('\u0472', ['\u0473']),
  ('\u0474', ['\u0475']), ('\u0476', ['\u0477']), ('\u0478', ['\u0479']),
  ('\u047a', ['\u047b']), ('\u047c', ['\u047d']), ('\u047e', ['\u047f']),
  ('\u0480', ['\u0481']), ('\u048a', ['\u048b']), ('\u048c', ['\u048d']),
  ('\u048e', ['\u048f']), ('\u0490', ['\u0491']), ('\u0492', ['\u0493']),
  ('\u0494', ['\u0495']), ('\u0496', ['\u0497']), ('\u0498', ['\u0499']),
  ('\u049a', ['\u049b']), ('\u049c', ['\u049d']), ('\u049e', ['\u049f']),
  ('\u04a0', ['\u04a1']), ('\u04a2', ['\u04a3']), ('\u04a4', ['\u04a5']),
  ('\u04a6', ['\u04a7']), ('\u04a8', ['\u04a9']), ('\u04aa', ['\u04ab']),
  ('\u04ac', ['\u04ad']), ('\u04ae', ['\u04af']), ('\u04b0', ['\u04b1']),
  ('\u04b2', ['\u04b3']), ('\u04b4', ['\u04b5']), ('\u04b6', ['\u04b7']),
  ('\u04b8', ['\u04b9']), ('\u04ba', ['\u04bb']), ('\u04bc', ['\u04bd']),
  ('\u04be', ['\u04bf']), ('\u04c0', ['\u04cf']), ('\u04c1', ['\u04c2']),
  ('\u04c3', ['\u04c4']), ('\u04c5', ['\u04c6']), ('\u04c7', ['\u04c8']),
  ('\u04c9', ['\u04ca']), ('\u04cb', ['\u04cc']), ('\u04cd', ['\u04ce']),
  ('\u04d0', ['\u04d1']), ('\u04d2', ['\u04d3']), ('\u04d4', ['\u04d5']),
  ('\u04d6', ['\u04d7']), ('\u04d8', ['\u04d9']), ('\u04da', ['\u04db']),
  ('\u04dc', ['\u04dd']), ('\u04de', ['\u04df']), ('\u04e0', ['\u04e1']),
  ('\u04e2', ['\u04e3']), ('\u04e4', ['\u04e5']), ('\u04e6', ['\u04e7']),
  ('\u04e8', ['\u04e9']), ('\u04ea', ['\u04eb']), ('\u04ec', ['\u04ed']),
  ('\u04ee', ['\u04ef']), ('\u04f0', ['\u04f1']), ('\u04f2', ['\u04f3']),
  ('\u04f4', ['\u04f5']), ('\u04f6', ['\u04f7']), ('\u04f8', ['\u04f9']),
  ('\u04fa', ['\u04fb']), ('\u04fc', ['\u04fd']), ('\u04fe', ['\u04ff']),
  ('\u0500', ['\u0501']), ('\u0502', ['\u0503']), ('\u0504', ['\u0505']),
  ('\u0506', ['\u0507']), ('\u0508', ['\u0509']), ('\u050a', ['\u050b']),
  ('\u050c', ['\u050d']), ('\u050e', ['\u050f']), ('\u0510', ['\u0511']),
  ('\u0512', ['\u0513']), ('\u0514', ['\u0515']), ('\u0516', ['\u0517']),
  ('\u0518', ['\u0519']), ('\u051a', ['\u051b']), ('\u051c', ['\u051d']),
  ('\u051e', ['\u051f']), ('\u0520', ['\u0521']), ('\u0522', ['\u0523']),
  ('\u0524', ['\u0525']), ('\u0526', ['\u0527']), ('\u0528', ['\u0529']),
  ('\u052a', ['\u052b']), ('\u052c', ['\u052d']), ('\u052e', ['\u052f']),
  ('\u0531', ['\u0561']), ('\u0532', ['\u0562']), ('\u0533', ['\u0563']),
  ('\u0534', ['\u0564']), ('\u0535', ['\u0565']), ('\u0536', ['\u0566']),
  ('\u0537', ['\u0567']), ('\u0538', ['\u0568']), ('\u0539', ['\u0569']),
  ('\u053a', ['\u056a']), ('\u053b', ['\u056b']), ('\u053c', ['\u056c']),
  ('\u053d', ['\u056d']), ('\u053e', ['\u056e']), ('\u053f', ['\u056f']),
  ('\u0540', ['\u0570']), ('\u0541', ['\u0571']), ('\u0542', ['\u0572']),
  ('\u0543', ['\u0573']), ('\u0544', ['\u0574']), ('\u0545', ['\u0575']),
  ('\u0546', ['\u0576']), ('\u0547', ['\u0577']), ('\u0548', ['\u0578']),
  ('\u0549', ['\u0579']), ('\u054a', ['\u057a']), ('\u054b', ['\u057b']),
  ('\u054c', ['\u057c']), ('\u054d', ['\u057d']), ('\u054e', ['\u057e']),
  ('\u054f', ['\u057f']), ('\u0550', ['\u0580']), ('\u0551', ['\u0581']),
  ('\u0552', ['\u0582']), ('\u0553', ['\u0583']), ('\u0554', ['\u0584']),
  ('\u0555', ['\u0585']), ('\u0556', ['\u0586']), ('\u10a0', ['\u2d00']),
  ('\u10a1', ['\u2d01']), ('\u10a2', ['\u2d02']), ('\u10a3', ['\u2d03']),
  ('\u10a4', ['\u2d04']), ('\u10a5', ['\u2d05']), ('\u10a6', ['\u2d06']),
  ('\u10a7', ['\u2d07']), ('\u10a8', ['\u2d08']), ('\u10a9', ['\u2d09']),
  ('\u10aa', ['\u2d0a']), ('\u10ab', ['\u2d0b']), ('\u10ac', ['\u2d0c']),
  ('\u10ad', ['\u2d0d']), ('\u10ae', ['\u2d0e']), ('\u10af', ['\u2d0f']),
  ('\u10b0', ['\u2d10']), ('\u10b1', ['\u2d11']), ('\u10b2', ['\u2d12']),
  ('\u10b3', ['\u2d13']), ('\u10b4', ['\u2d14']), ('\u10b5', ['\u2d15']),
  ('\u10b6', ['\u2d16']), ('\u10b7', ['\u2d17']), ('\u10b8', ['\u2d18']),
  ('\u10b9', ['\u2d19']), ('\u10ba', ['\u2d1a']), ('\u10bb', ['\u2d1b']),
  ('\u10bc', ['\u2d1c']), ('\u10bd', ['\u2d1d']), ('\u10be', ['\u2d1e']),
  ('\u10bf', ['\u2d1f']), ('\u10c0', ['\u2d20']), ('\u10c1', ['\u2d21']),
  ('\u10c2', ['\u2d22']), ('\u10c3', ['\u2d23']), ('\u10c4', ['\u2d24']),
  ('\u10c5', ['\u2d25']), ('\u10c7', ['\u2d27']), ('\u10cd', ['\u2d2d']),
  ('\u13a0', ['\uab70']), ('\u13a1', ['\uab71']), ('\u13a2', ['\uab72']),
  ('\u13a3', ['\uab73']), ('\u13a4', ['\uab74']), ('\u13a5', ['\uab75']),
  ('\u13a6', ['\uab76']), ('\u13a7', ['\uab77']), ('\u13a8', ['\uab78']),
  ('\u13a9', ['\uab79']), ('\u13aa', ['\uab7a']), ('\u13ab', ['\uab7b']),
  ('\u13ac', ['\uab7c']), ('\u13ad', ['\uab7d']), ('\u13ae', ['\uab7e']),
  ('\u13af', ['\uab7f']), ('\u13b0', ['\uab80']), ('\u13b1', ['\uab81']),
  ('\u13b2', ['\uab82']), ('\u13b3', ['\uab83']), ('\u13b4', ['\uab84']),
  ('\u13b5', ['\uab85']), ('\u13b6', ['\uab86']), ('\u13b7', ['\uab87']),
  ('\u13b8', ['\uab88']), ('\u13b9', ['\uab89']), ('\u13ba', ['\uab8a']),
  ('\u13bb', ['\uab8b']), ('\u13bc', ['\uab8c']), ('\u13bd', ['\uab8d']),
  ('\u13be', ['\uab8e']), ('\u13bf', ['\uab8f']), ('\u13c0', ['\uab90']),
  ('\u13c1', ['\uab91']), ('\u13c2', ['\uab92']), ('\u13c3', ['\uab93']),
  ('\u13c4', ['\uab94']), ('\u13c5', ['\uab95']), ('\u13c6', ['\uab96']),
  ('\u13c7', ['\uab97']), ('\u13c8', ['\uab98']), ('\u13c9', ['\uab99']),
  ('\u13ca', ['\uab9a']), ('\u13cb', ['\uab9b']), ('\u13cc', ['\uab9c']),
  ('\u13cd', ['\uab9d']), ('\u13ce', ['\uab9e']), ('\u13cf', ['\uab9f']),
  ('\u13d0', ['\uaba0']), ('\u13d1', ['\uaba1']), ('\u13d2', ['\uaba2']),
  ('\u13d3', ['\uaba3']), ('\u13d4', ['\uaba4']), ('\u13d5', ['\uaba5']),
  ('\u13d6', ['\uaba6']), ('\u13d7', ['\uaba7']), ('\u13d8', ['\uaba8']),
  ('\u13d9', ['\uaba9']), ('\u13da', ['\uabaa']), ('\u13db', ['\uabab']),
  ('\u13dc', ['\uabac']), ('\u13dd', ['\uabad']), ('\u13de', ['\uabae']),
  ('\u13df', ['\uabaf']), ('\u13e0', ['\uabb0']), ('\u13e1', ['\uabb1']),
  ('\u13e2', ['\uabb2']), ('\u13e3', ['\uabb3']), ('\u13e4', ['\uabb4']),
  ('\u13e5', ['\uabb5']), ('\u13e6', ['\uabb6'])]

/-- Chunk 2 of the Unicode lowercase mapping table. -/
def LT_2 : List (Char × List Char) := [
  ('\u13e7', ['\uabb7']), ('\u13e8', ['\uabb8']), ('\u13e9', ['\uabb9']),
  ('\u13ea', ['\uabba']), ('\u13eb', ['\uabbb']), ('\u13ec', ['\uabbc']),
  ('\u13ed', ['\uabbd']), ('\u13ee', ['\uabbe']), ('\u13ef', ['\uabbf']),
  ('\u13f0', ['\u13f8']), ('\u13f1', ['\u13f9']), ('\u13f2', ['\u13fa']),
  ('\u13f3', ['\u13fb']), ('\u13f4', ['\u13fc']), ('\u13f5', ['\u13fd']),
  ('\u1c90', ['\u10d0']), ('\u1c91', ['\u10d1']), ('\u1c92', ['\u10d2']),
  ('\u1c93', ['\u10d3']), ('\u1c94', ['\u10d4']), ('\u1c95', ['\u10d5']),
  ('\u1c96', ['\u10d6']), ('\u1c97', ['\u10d7']), ('\u1c98', ['\u10d8']),
  ('\u1c99', ['\u10d9']), ('\u1c9a', ['\u10da']), ('\u1c9b', ['\u10db']),
  ('\u1c9c', ['\u10dc']), ('\u1c9d', ['\u10dd']), ('\u1c9e', ['\u10de']),
  ('\u1c9f', ['\u10df']), ('\u1ca0', ['\u10e0']), ('\u1ca1', ['\u10e1']),
  ('\u1ca2', ['\u10e2']), ('\u1ca3', ['\u10e3']), ('\u1ca4', ['\u10e4']),
  ('\u1ca5', ['\u10e5']), ('\u1ca6', ['\u10e6']), ('\u1ca7', ['\u10e7']),
  ('\u1ca8', ['\u10e8']), ('\u1ca9', ['\u10e9']), ('\u1caa', ['\u10ea']),
  ('\u1cab', ['\u10eb']), ('\u1cac', ['\u10ec']), ('\u1cad', ['\u10ed']),
  ('\u1cae', ['\u10ee']), ('\u1caf', ['\u10ef']), ('\u1cb0', ['\u10f0']),
  ('\u1cb1', ['\u10f1']), ('\u1cb2', ['\u10f2']), ('\u1cb3', ['\u10f3']),
  ('\u1cb4', ['\u10f4']), ('\u1cb5', ['\u10f5']), ('\u1cb6', ['\u10f6']),
  ('\u1cb7', ['\u10f7']), ('\u1cb8', ['\u10f8']), ('\u1cb9', ['\u10f9']),
  ('\u1cba', ['\u10fa']), ('\u1cbd', ['\u10fd']), ('\u1cbe', ['\u10fe']),
  ('\u1cbf', ['\u10ff']), ('\u1e00', ['\u1e01']), ('\u1e02', ['\u1e03']),
  ('\u1e04', ['\u1e05']), ('\u1e06', ['\u1e07']), ('\u1e08', ['\u1e09']),
  ('\u1e0a', ['\u1e0b']), ('\u1e0c', ['\u1e0d']), ('\u1e0e', ['\u1e0f']),
  ('\u1e10', ['\u1e11']), ('\u1e12', ['\u1e13']), ('\u1e14', ['\u1e15']),
  ('\u1e16', ['\u1e17']), ('\u1e18', ['\u1e19']), ('\u1e1a', ['\u1e1b']),
  ('\u1e1c', ['\u1e1d']), ('\u1e1e', ['\u1e1f']), ('\u1e20', ['\u1e21']),
  ('\u1e22', ['\u1e23']), ('\u1e24', ['\u1e25']), ('\u1e26', ['\u1e27']),
  ('\u1e28', ['\u1e29']), ('\u1e2a', ['\u1e2b']), ('\u1e2c', ['\u1e2d']),
  ('\u1e2e', ['\u1e2f']), ('\u1e30', ['\u1e31']), ('\u1e32', ['\u1e33']),
  ('\u1e34', ['\u1e35']), ('\u1e36', ['\u1e37']), ('\u1e38', ['\u1e39']),
  ('\u1e3a', ['\u1e3b']), ('\u1e3c', ['\u1e3d']), ('\u1e3e', ['\u1e3f']),
  ('\u1e40', ['\u1e41']), ('\u1e42', ['\u1e43']), ('\u1e44', ['\u1e45']),
  ('\u1e46', ['\u1e47']), ('\u1e48', ['\u1e49']), ('\u1e4a', ['\u1e4b']),
  ('\u1e4c', ['\u1e4d']), ('\u1e4e', ['\u1e4f']), ('\u1e50', ['\u1e51']),
  ('\u1e52', ['\u1e53']), ('\u1e54', ['\u1e55']), ('\u1e56', ['\u1e57']),
  ('\u1e58', ['\u1e59']), ('\u1e5a', ['\u1e5b']), ('\u1e5c', ['\u1e5d']),
  ('\u1e5e', ['\u1e5f']), ('\u1e60', ['\u1e61']), ('\u1e62', ['\u1e63']),
  ('\u1e64', ['\u1e65']), ('\u1e66', ['\u1e67']), ('\u1e68', ['\u1e69']),
  ('\u1e6a', ['\u1e6b']), ('\u1e6c', ['\u1e6d']), ('\u1e6e', ['\u1e6f']),
  ('\u1e70', ['\u1e71']), ('\u1e72', ['\u1e73']), ('\u1e74', ['\u1e75']),
  ('\u1e76', ['\u1e77']), ('\u1e78', ['\u1e79']), ('\u1e7a', ['\u1e7b']),
  ('\u1e7c', ['\u1e7d']), ('\u1e7e', ['\u1e7f']), ('\u1e80', ['\u1e81']),
  ('\u1e82', ['\u1e83']), ('\u1e84', ['\u1e85']), ('\u1e86', ['\u1e87']),
  ('\u1e88', ['\u1e89']), ('\u1e8a', ['\u1e8b']), ('\u1e8c', ['\u1e8d']),
  ('\u1e8e', ['\u1e8f']), ('\u1e90', ['\u1e91']), ('\u1e92', ['\u1e93']),
  ('\u1e94', ['\u1e95']), ('\u1e9e', ['\u00df']), ('\u1ea0', ['\u1ea1']),
  ('\u1ea2', ['\u1ea3']), ('\u1ea4', ['\u1ea5']), ('\u1ea6', ['\u1ea7']),
  ('\u1ea8', ['\u1ea9']), ('\u1eaa', ['\u1eab']), ('\u1eac', ['\u1ead']),
  ('\u1eae', ['\u1eaf']), ('\u1eb0', ['\u1eb1']), ('\u1eb2', ['\u1eb3']),
  ('\u1eb4', ['\u1eb5']), ('\u1eb6', ['\u1eb7']), ('\u1eb8', ['\u1eb9']),
  ('\u1eba', ['\u1ebb']), ('\u1ebc', ['\u1ebd']), ('\u1ebe', ['\u1ebf']),
  ('\u1ec0', ['\u1ec1']), ('\u1ec2', ['\u1ec3']), ('\u1ec4', ['\u1ec5']),
  ('\u1ec6', ['\u1ec7']), ('\u1ec8', ['\u1ec9']), ('\u1eca', ['\u1ecb']),
  ('\u1ecc', ['\u1ecd']), ('\u1ece', ['\u1ecf']), ('\u1ed0', ['\u1ed1']),
  ('\u1ed2', ['\u1ed3']), ('\u1ed4', ['\u1ed5']), ('\u1ed6', ['\u1ed7']),
  ('\u1ed8', ['\u1ed9']), ('\u1eda', ['\u1edb']), ('\u1edc', ['\u1edd']),
  ('\u1ede', ['\u1edf']), ('\u1ee0', ['\u1ee1']), ('\u1ee2', ['\u1ee3']),
  ('\u1ee4', ['\u1ee5']), ('\u1ee6', ['\u1ee7']), ('\u1ee8', ['\u1ee9']),
  ('\u1eea', ['\u1eeb']), ('\u1eec', ['\u1eed']), ('\u1eee', ['\u1eef']),
  ('\u1ef0', ['\u1ef1']), ('\u1ef2', ['\u1ef3']), ('\u1ef4', ['\u1ef5']),
  ('\u1ef6', ['\u1ef7']), ('\u1ef8', ['\u1ef9']), ('\u1efa', ['\u1efb']),
  ('\u1efc', ['\u1efd']), ('\u1efe', ['\u1eff']), ('\u1f08', ['\u1f00']),
  ('\u1f09', ['\u1f01']), ('\u1f0a', ['\u1f02']), ('\u1f0b', ['\u1f03']),
  ('\u1f0c', ['\u1f04']), ('\u1f0d', ['\u1f05']), ('\u1f0e', ['\u1f06']),
  ('\u1f0f', ['\u1f07']), ('\u1f18', ['\u1f10']), ('\u1f19', ['\u1f11']),
  ('\u1f1a', ['\u1f12']), ('\u1f1b', ['\u1f13']), ('\u1f1c', ['\u1f14']),
  ('\u1f1d', ['\u1f15']), ('\u1f28', ['\u1f20']), ('\u1f29', ['\u1f21']),
  ('\u1f2a', ['\u1f22']), ('\u1f2b', ['\u1f23']), ('\u1f2c', ['\u1f24']),
  ('\u1f2d', ['\u1f25']), ('\u1f2e', ['\u1f26']), ('\u1f2f', ['\u1f27']),
  ('\u1f38', ['\u1f30']), ('\u1f39', ['\u1f31']), ('\u1f3a', ['\u1f32']),
  ('\u1f3b', ['\u1f33']), ('\u1f3c', ['\u1f34']), ('\u1f3d', ['\u1f35']),
  ('\u1f3e', ['\u1f36']), ('\u1f3f', ['\u1f37']), ('\u1f48', ['\u1f40']),
  ('\u1f49', ['\u1f41']), ('\u1f4a', ['\u1f42']), ('\u1f4b', ['\u1f43']),
  ('\u1f4c', ['\u1f44']), ('\u1f4d', ['\u1f45']), ('\u1f59', ['\u1f51']),
  ('\u1f5b', ['\u1f53']), ('\u1f5d', ['\u1f55']), ('\u1f5f', ['\u1f57']),
  ('\u1f68', ['\u1f60']), ('\u1f69', ['\u1f61']), ('\u1f6a', ['\u1f62']),
  ('\u1f6b', ['\u1f63']), ('\u1f6c', ['\u1f64']), ('\u1f6d', ['\u1f65']),
  ('\u1f6e', ['\u1f66']), ('\u1f6f', ['\u1f67']), ('\u1f88', ['\u1f80']),
  ('\u1f89', ['\u1f81']), ('\u1f8a', ['\u1f82']), ('\u1f8b', ['\u1f83']),
  ('\u1f8c', ['\u1f84']), ('\u1f8d', ['\u1f85']), ('\u1f8e', ['\u1f86']),
  ('\u1f8f', ['\u1f87']), ('\u1f98', ['\u1f90']), ('\u1f99', ['\u1f91']),
  ('\u1f9a', ['\u1f92']), ('\u1f9b', ['\u1f93']), ('\u1f9c', ['\u1f94']),
  ('\u1f9d', ['\u1f95']), ('\u1f9e', ['\u1f96']), ('\u1f9f', ['\u1f97']),
  ('\u1fa8', ['\u1fa0']), ('\u1fa9', ['\u1fa1']), ('\u1faa', ['\u1fa2']),
  ('\u1fab', ['\u1fa3']), ('\u1fac', ['\u1fa4']), ('\u1fad', ['\u1fa5']),
  ('\u1fae', ['\u1fa6']), ('\u1faf', ['\u1fa7']), ('\u1fb8', ['\u1fb0']),
  ('\u1fb9', ['\u1fb1']), ('\u1fba', ['\u1f70']), ('\u1fbb', ['\u1f71']),
  ('\u1fbc', ['\u1fb3']), ('\u1fc8', ['\u1f72']), ('\u1fc9', ['\u1f73']),
  ('\u1fca', ['\u1f74']), ('\u1fcb', ['\u1f75']), ('\u1fcc', ['\u1fc3']),
  ('\u1fd8', ['\u1fd0']), ('\u1fd9', ['\u1fd1']), ('\u1fda', ['\u1f76']),
  ('\u1fdb', ['\u1f77']), ('\u1fe8', ['\u1fe0']), ('\u1fe9', ['\u1fe1']),
  ('\u1fea', ['\u1f7a']), ('\u1feb', ['\u1f7b']), ('\u1fec', ['\u1fe5']),
  ('\u1ff8', ['\u1f78']), ('\u1ff9', ['\u1f79']), ('\u1ffa', ['\u1f7c']),
  ('\u1ffb', ['\u1f7d']), ('\u1ffc', ['\u1ff3']), ('\u2126', ['\u03c9']),
  ('\u212a', ['\u006b']), ('\u212b', ['\u00e5']), ('\u2132', ['\u214e']),
  ('\u2160', ['\u2170']), ('\u2161', ['\u2171']), ('\u2162', ['\u2172']),
  ('\u2163', ['\u2173']), ('\u2164', ['\u2174'])]

/-- Chunk 3 of the Unicode lowercase mapping table. -/
def LT_3 : List (Char × List Char) := [
  ('\u2165', ['\u2175']), ('\u2166', ['\u2176']), ('\u2167', ['\u2177']),
  ('\u2168', ['\u2178']), ('\u2169', ['\u2179']), ('\u216a', ['\u217a']),
  ('\u216b', ['\u217b']), ('\u216c', ['\u217c']), ('\u216d', ['\u217d']),
  ('\u216e', ['\u217e']), ('\u216f', ['\u217f']), ('\u2183', ['\u2184']),
  ('\u24b6', ['\u24d0']), ('\u24b7', ['\u24d1']), ('\u24b8', ['\u24d2']),
  ('\u24b9', ['\u24d3']), ('\u24ba', ['\u24d4']), ('\u24bb', ['\u24d5']),
  ('\u24bc', ['\u24d6']), ('\u24bd', ['\u24d7']), ('\u24be', ['\u24d8']),
  ('\u24bf', ['\u24d9']), ('\u24c0', ['\u24da']), ('\u24c1', ['\u24db']),
  ('\u24c2', ['\u24dc']), ('\u24c3', ['\u24dd']), ('\u24c4', ['\u24de']),
  ('\u24c5', ['\u24df']), ('\u24c6', ['\u24e0']), ('\u24c7', ['\u24e1']),
  ('\u24c8', ['\u24e2']), ('\u24c9', ['\u24e3']), ('\u24ca', ['\u24e4']),
  ('\u24cb', ['\u24e5']), ('\u24cc', ['\u24e6']), ('\u24cd', ['\u24e7']),
  ('\u24ce', ['\u24e8']), ('\u24cf', ['\u24e9']), ('\u2c00', ['\u2c30']),
  ('\u2c01', ['\u2c31']), ('\u2c02', ['\u2c32']), ('\u2c03', ['\u2c33']),
  ('\u2c04', ['\u2c34']), ('\u2c05', ['\u2c35']), ('\u2c06', ['\u2c36']),
  ('\u2c07', ['\u2c37']), ('\u2c08', ['\u2c38']), ('\u2c09', ['\u2c39']),
  ('\u2c0a', ['\u2c3a']), ('\u2c0b', ['\u2c3b']), ('\u2c0c', ['\u2c3c']),
  ('\u2c0d', ['\u2c3d']), ('\u2c0e', ['\u2c3e']), ('\u2c0f', ['\u2c3f']),
  ('\u2c10', ['\u2c40']), ('\u2c11', ['\u2c41']), ('\u2c12', ['\u2c42']),
  ('\u2c13', ['\u2c43']), ('\u2c14', ['\u2c44']), ('\u2c15', ['\u2c45']),
  ('\u2c16', ['\u2c46']), ('\u2c17', ['\u2c47']), ('\u2c18', ['\u2c48']),
  ('\u2c19', ['\u2c49']), ('\u2c1a', ['\u2c4a']), ('\u2c1b', ['\u2c4b']),
  ('\u2c1c', ['\u2c4c']), ('\u2c1d', ['\u2c4d']), ('\u2c1e', ['\u2c4e']),
  ('\u2c1f', ['\u2c4f']), ('\u2c20', ['\u2c50']), ('\u2c21', ['\u2c51']),
  ('\u2c22', ['\u2c52']), ('\u2c23', ['\u2c53']), ('\u2c24', ['\u2c54']),
  ('\u2c25', ['\u2c55']), ('\u2c26', ['\u2c56']), ('\u2c27', ['\u2c57']),
  ('\u2c28', ['\u2c58']), ('\u2c29', ['\u2c59']), ('\u2c2a', ['\u2c5a']),
  ('\u2c2b', ['\u2c5b']), ('\u2c2c', ['\u2c5c']), ('\u2c2d', ['\u2c5d']),
  ('\u2c2e', ['\u2c5e']), ('\u2c2f', ['\u2c5f']), ('\u2c60', ['\u2c61']),
  ('\u2c62', ['\u026b']), ('\u2c63', ['\u1d7d']), ('\u2c64', ['\u027d']),
  ('\u2c67', ['\u2c68']), ('\u2c69', ['\u2c6a']), ('\u2c6b', ['\u2c6c']),
  ('\u2c6d', ['\u0251']), ('\u2c6e', ['\u0271']), ('\u2c6f', ['\u0250']),
  ('\u2c70', ['\u0252']), ('\u2c72', ['\u2c73']), ('\u2c75', ['\u2c76']),
  ('\u2c7e', ['\u023f']), ('\u2c7f', ['\u0240']), ('\u2c80', ['\u2c81']),
  ('\u2c82', ['\u2c83']), ('\u2c84', ['\u2c85']), ('\u2c86', ['\u2c87']),
  ('\u2c88', ['\u2c89']), ('\u2c8a', ['\u2c8b']), ('\u2c8c', ['\u2c8d']),
  ('\u2c8e', ['\u2c8f']), ('\u2c90', ['\u2c91']), ('\u2c92', ['\u2c93']),
  ('\u2c94', ['\u2c95']), ('\u2c96', ['\u2c97']), ('\u2c98', ['\u2c99']),
  ('\u2c9a', ['\u2c9b']), ('\u2c9c', ['\u2c9d']), ('\u2c9e', ['\u2c9f']),
  ('\u2ca0', ['\u2ca1']), ('\u2ca2', ['\u2ca3']), ('\u2ca4', ['\u2ca5']),
  ('\u2ca6', ['\u2ca7']), ('\u2ca8', ['\u2ca9']), ('\u2caa', ['\u2cab']),
  ('\u2cac', ['\u2cad']), ('\u2cae', ['\u2caf']), ('\u2cb0', ['\u2cb1']),
  ('\u2cb2', ['\u2cb3']), ('\u2cb4', ['\u2cb5']), ('\u2cb6', ['\u2cb7']),
  ('\u2cb8', ['\u2cb9']), ('\u2cba', ['\u2cbb']), ('\u2cbc', ['\u2cbd']),
  ('\u2cbe', ['\u2cbf']), ('\u2cc0', ['\u2cc1']), ('\u2cc2', ['\u2cc3']),
  ('\u2cc4', ['\u2cc5']), ('\u2cc6', ['\u2cc7']), ('\u2cc8', ['\u2cc9']),
  ('\u2cca', ['\u2ccb']), ('\u2ccc', ['\u2ccd']), ('\u2cce', ['\u2ccf']),
  ('\u2cd0', ['\u2cd1']), ('\u2cd2', ['\u2cd3']), ('\u2cd4', ['\u2cd5']),
  ('\u2cd6', ['\u2cd7']), ('\u2cd8', ['\u2cd9']), ('\u2cda', ['\u2cdb']),
  ('\u2cdc', ['\u2cdd']), ('\u2cde', ['\u2cdf']), ('\u2ce0', ['\u2ce1']),
  ('\u2ce2', ['\u2ce3']), ('\u2ceb', ['\u2cec']), ('\u2ced', ['\u2cee']),
  ('\u2cf2', ['\u2cf3']), ('\ua640', ['\ua641']), ('\ua642', ['\ua643']),
  ('\ua644', ['\ua645']), ('\ua646', ['\ua647']), ('\ua648', ['\ua649']),
  ('\ua64a', ['\ua64b']), ('\ua64c', ['\ua64d']), ('\ua64e', ['\ua64f']),
  ('\ua650', ['\ua651']), ('\ua652', ['\ua653']), ('\ua654', ['\ua655']),
  ('\ua656', ['\ua657']), ('\ua658', ['\ua659']), ('\ua65a', ['\ua65b']),
  ('\ua65c', ['\ua65d']), ('\ua65e', ['\ua65f']), ('\ua660', ['\ua661']),
  ('\ua662', ['\ua663']), ('\ua664', ['\ua665']), ('\ua666', ['\ua667']),
  ('\ua668', ['\ua669']), ('\ua66a', ['\ua66b']), ('\ua66c', ['\ua66d']),
  ('\ua680', ['\ua681']), ('\ua682', ['\ua683']), ('\ua684', ['\ua685']),
  ('\ua686', ['\ua687']), ('\ua688', ['\ua689']), ('\ua68a', ['\ua68b']),
  ('\ua68c', ['\ua68d']), ('\ua68e', ['\ua68f']), ('\ua690', ['\ua691']),
  ('\ua692', ['\ua693']), ('\ua694', ['\ua695']), ('\ua696', ['\ua697']),
  ('\ua698', ['\ua699']), ('\ua69a', ['\ua69b']), ('\ua722', ['\ua723']),
  ('\ua724', ['\ua725']), ('\ua726', ['\ua727']), ('\ua728', ['\ua729']),
  ('\ua72a', ['\ua72b']), ('\ua72c', ['\ua72d']), ('\ua72e', ['\ua72f']),
  ('\ua732', ['\ua733']), ('\ua734', ['\ua735']), ('\ua736', ['\ua737']),
  ('\ua738', ['\ua739']), ('\ua73a', ['\ua73b']), ('\ua73c', ['\ua73d']),
  ('\ua73e', ['\ua73f']), ('\ua740', ['\ua741']), ('\ua742', ['\ua743']),
  ('\ua744', ['\ua745']), ('\ua746', ['\ua747']), ('\ua748', ['\ua749']),
  ('\ua74a', ['\ua74b']), ('\ua74c', ['\ua74d']), ('\ua74e', ['\ua74f']),
  ('\ua750', ['\ua751']), ('\ua752', ['\ua753']), ('\ua754', ['\ua755']),
  ('\ua756', ['\ua757']), ('\ua758', ['\ua759']), ('\ua75a', ['\ua75b']),
  ('\ua75c', ['\ua75d']), ('\ua75e', ['\ua75f']), ('\ua760', ['\ua761']),
  ('\ua762', ['\ua763']), ('\ua764', ['\ua765']), ('\ua766', ['\ua767']),
  ('\ua768', ['\ua769']), ('\ua76a', ['\ua76b']), ('\ua76c', ['\ua76d']),
  ('\ua76e', ['\ua76f']), ('\ua779', ['\ua77a']), ('\ua77b', ['\ua77c']),
  ('\ua77d', ['\u1d79']), ('\ua77e', ['\ua77f']), ('\ua780', ['\ua781']),
  ('\ua782', ['\ua783']), ('\ua784', ['\ua785']), ('\ua786', ['\ua787']),
  ('\ua78b', ['\ua78c']), ('\ua78d', ['\u0265']), ('\ua790', ['\ua791']),
  ('\ua792', ['\ua793']), ('\ua796', ['\ua797']), ('\ua798', ['\ua799']),
  ('\ua79a', ['\ua79b']), ('\ua79c', ['\ua79d']), ('\ua79e', ['\ua79f']),
  ('\ua7a0', ['\ua7a1']), ('\ua7a2', ['\ua7a3']), ('\ua7a4', ['\ua7a5']),
  ('\ua7a6', ['\ua7a7']), ('\ua7a8', ['\ua7a9']), ('\ua7aa', ['\u0266']),
  ('\ua7ab', ['\u025c']), ('\ua7ac', ['\u0261']), ('\ua7ad', ['\u026c']),
  ('\ua7ae', ['\u026a']), ('\ua7b0', ['\u029e']), ('\ua7b1', ['\u0287']),
  ('\ua7b2', ['\u029d']), ('\ua7b3', ['\uab53']), ('\ua7b4', ['\ua7b5']),
  ('\ua7b6', ['\ua7b7']), ('\ua7b8', ['\ua7b9']), ('\ua7ba', ['\ua7bb']),
  ('\ua7bc', ['\ua7bd']), ('\ua7be', ['\ua7bf']), ('\ua7c0', ['\ua7c1']),
  ('\ua7c2', ['\ua7c3']), ('\ua7c4', ['\ua794']), ('\ua7c5', ['\u0282']),
  ('\ua7c6', ['\u1d8e']), ('\ua7c7', ['\ua7c8']), ('\ua7c9', ['\ua7ca']),
  ('\ua7d0', ['\ua7d1']), ('\ua7d6', ['\ua7d7']), ('\ua7d8', ['\ua7d9']),
  ('\ua7f5', ['\ua7f6']), ('\uff21', ['\uff41']), ('\uff22', ['\uff42']),
  ('\uff23', ['\uff43']), ('\uff24', ['\uff44']), ('\uff25', ['\uff45']),
  ('\uff26', ['\uff46']), ('\uff27', ['\uff47']), ('\uff28', ['\uff48']),
  ('\uff29', ['\uff49']), ('\uff2a', ['\uff4a']), ('\uff2b', ['\uff4b']),
  ('\uff2c', ['\uff4c']), ('\uff2d', ['\uff4d'])]

/-- Chunk 4 of the Unicode lowercase mapping table. -/
def LT_4 : List (Char × List Char) := [
  ('\uff2e', ['\uff4e']), ('\uff2f', ['\uff4f']), ('\uff30', ['\uff50']),
  ('\uff31', ['\uff51']), ('\uff32', ['\uff52']), ('\uff33', ['\uff53']),
  ('\uff34', ['\uff54']), ('\uff35', ['\uff55']), ('\uff36', ['\uff56']),
  ('\uff37', ['\uff57']), ('\uff38', ['\uff58']), ('\uff39', ['\uff59']),
  ('\uff3a', ['\uff5a']), ('𐐀', ['𐐨']), ('𐐁', ['𐐩']),
  ('𐐂', ['𐐪']), ('𐐃', ['𐐫']), ('𐐄', ['𐐬']),
  ('𐐅', ['𐐭']), ('𐐆', ['𐐮']), ('𐐇', ['𐐯']),
  ('𐐈', ['𐐰']), ('𐐉', ['𐐱']), ('𐐊', ['𐐲']),
  ('𐐋', ['𐐳']), ('𐐌', ['𐐴']), ('𐐍', ['𐐵']),
  ('𐐎', ['𐐶']), ('𐐏', ['𐐷']), ('𐐐', ['𐐸']),
  ('𐐑', ['𐐹']), ('𐐒', ['𐐺']), ('𐐓', ['𐐻']),
  ('𐐔', ['𐐼']), ('𐐕', ['𐐽']), ('𐐖', ['𐐾']),
  ('𐐗', ['𐐿']), ('𐐘', ['𐑀']), ('𐐙', ['𐑁']),
  ('𐐚', ['𐑂']), ('𐐛', ['𐑃']), ('𐐜', ['𐑄']),
  ('𐐝', ['𐑅']), ('𐐞', ['𐑆']), ('𐐟', ['𐑇']),
  ('𐐠', ['𐑈']), ('𐐡', ['𐑉']), ('𐐢', ['𐑊']),
  ('𐐣', ['𐑋']), ('𐐤', ['𐑌']), ('𐐥', ['𐑍']),
  ('𐐦', ['𐑎']), ('𐐧', ['𐑏']), ('𐒰', ['𐓘']),
  ('𐒱', ['𐓙']), ('𐒲', ['𐓚']), ('𐒳', ['𐓛']),
  ('𐒴', ['𐓜']), ('𐒵', ['𐓝']), ('𐒶', ['𐓞']),
  ('𐒷', ['𐓟']), ('𐒸', ['𐓠']), ('𐒹', ['𐓡']),
  ('𐒺', ['𐓢']), ('𐒻', ['𐓣']), ('𐒼', ['𐓤']),
  ('𐒽', ['𐓥']), ('𐒾', ['𐓦']), ('𐒿', ['𐓧']),
  ('𐓀', ['𐓨']), ('𐓁', ['𐓩']), ('𐓂', ['𐓪']),
  ('𐓃', ['𐓫']), ('𐓄', ['𐓬']), ('𐓅', ['𐓭']),
  ('𐓆', ['𐓮']), ('𐓇', ['𐓯']), ('𐓈', ['𐓰']),
  ('𐓉', ['𐓱']), ('𐓊', ['𐓲']), ('𐓋', ['𐓳']),
  ('𐓌', ['𐓴']), ('𐓍', ['𐓵']), ('𐓎', ['𐓶']),
  ('𐓏', ['𐓷']), ('𐓐', ['𐓸']), ('𐓑', ['𐓹']),
  ('𐓒', ['𐓺']), ('𐓓', ['𐓻']), ('𐕰', ['𐖗']),
  ('𐕱', ['𐖘']), ('𐕲', ['𐖙']), ('𐕳', ['𐖚']),
  ('𐕴', ['𐖛']), ('𐕵', ['𐖜']), ('𐕶', ['𐖝']),
  ('𐕷', ['𐖞']), ('𐕸', ['𐖟']), ('𐕹', ['𐖠']),
  ('𐕺', ['𐖡']), ('𐕼', ['𐖣']), ('𐕽', ['𐖤']),
  ('𐕾', ['𐖥']), ('𐕿', ['𐖦']), ('𐖀', ['𐖧']),
  ('𐖁', ['𐖨']), ('𐖂', ['𐖩']), ('𐖃', ['𐖪']),
  ('𐖄', ['𐖫']), ('𐖅', ['𐖬']), ('𐖆', ['𐖭']),
  ('𐖇', ['𐖮']), ('𐖈', ['𐖯']), ('𐖉', ['𐖰']),
  ('𐖊', ['𐖱']), ('𐖌', ['𐖳']), ('𐖍', ['𐖴']),
  ('𐖎', ['𐖵']), ('𐖏', ['𐖶']), ('𐖐', ['𐖷']),
  ('𐖑', ['𐖸']), ('𐖒', ['𐖹']), ('𐖔', ['𐖻']),
  ('𐖕', ['𐖼']), ('𐲀', ['𐳀']), ('𐲁', ['𐳁']),
  ('𐲂', ['𐳂']), ('𐲃', ['𐳃']), ('𐲄', ['𐳄']),
  ('𐲅', ['𐳅']), ('𐲆', ['𐳆']), ('𐲇', ['𐳇']),
  ('𐲈', ['𐳈']), ('𐲉', ['𐳉']), ('𐲊', ['𐳊']),
  ('𐲋', ['𐳋']), ('𐲌', ['𐳌']), ('𐲍', ['𐳍']),
  ('𐲎', ['𐳎']), ('𐲏', ['𐳏']), ('𐲐', ['𐳐']),
  ('𐲑', ['𐳑']), ('𐲒', ['𐳒']), ('𐲓', ['𐳓']),
  ('𐲔', ['𐳔']), ('𐲕', ['𐳕']), ('𐲖', ['𐳖']),
  ('𐲗', ['𐳗']), ('𐲘', ['𐳘']), ('𐲙', ['𐳙']),
  ('𐲚', ['𐳚']), ('𐲛', ['𐳛']), ('𐲜', ['𐳜']),
  ('𐲝', ['𐳝']), ('𐲞', ['𐳞']), ('𐲟', ['𐳟']),
  ('𐲠', ['𐳠']), ('𐲡', ['𐳡']), ('𐲢', ['𐳢']),
  ('𐲣', ['𐳣']), ('𐲤', ['𐳤']), ('𐲥', ['𐳥']),
  ('𐲦', ['𐳦']), ('𐲧', ['𐳧']), ('𐲨', ['𐳨']),
  ('𐲩', ['𐳩']), ('𐲪', ['𐳪']), ('𐲫', ['𐳫']),
  ('𐲬', ['𐳬']), ('𐲭', ['𐳭']), ('𐲮', ['𐳮']),
  ('𐲯', ['𐳯']), ('𐲰', ['𐳰']), ('𐲱', ['𐳱']),
  ('𐲲', ['𐳲']), ('𑢠', ['𑣀']), ('𑢡', ['𑣁']),
  ('𑢢', ['𑣂']), ('𑢣', ['𑣃']), ('𑢤', ['𑣄']),
  ('𑢥', ['𑣅']), ('𑢦', ['𑣆']), ('𑢧', ['𑣇']),
  ('𑢨', ['𑣈']), ('𑢩', ['𑣉']), ('𑢪', ['𑣊']),
  ('𑢫', ['𑣋']), ('𑢬', ['𑣌']), ('𑢭', ['𑣍']),
  ('𑢮', ['𑣎']), ('𑢯', ['𑣏']), ('𑢰', ['𑣐']),
  ('𑢱', ['𑣑']), ('𑢲', ['𑣒']), ('𑢳', ['𑣓']),
  ('𑢴', ['𑣔']), ('𑢵', ['𑣕']), ('𑢶', ['𑣖']),
  ('𑢷', ['𑣗']), ('𑢸', ['𑣘']), ('𑢹', ['𑣙']),
  ('𑢺', ['𑣚']), ('𑢻', ['𑣛']), ('𑢼', ['𑣜']),
  ('𑢽', ['𑣝']), ('𑢾', ['𑣞']), ('𑢿', ['𑣟']),
  ('𖹀', ['𖹠']), ('𖹁', ['𖹡']), ('𖹂', ['𖹢']),
  ('𖹃', ['𖹣']), ('𖹄', ['𖹤']), ('𖹅', ['𖹥']),
  ('𖹆', ['𖹦']), ('𖹇', ['𖹧']), ('𖹈', ['𖹨']),
  ('𖹉', ['𖹩']), ('𖹊', ['𖹪']), ('𖹋', ['𖹫']),
  ('𖹌', ['𖹬']), ('𖹍', ['𖹭']), ('𖹎', ['𖹮']),
  ('𖹏', ['𖹯']), ('𖹐', ['𖹰']), ('𖹑', ['𖹱']),
  ('𖹒', ['𖹲']), ('𖹓', ['𖹳']), ('𖹔', ['𖹴']),
  ('𖹕', ['𖹵']), ('𖹖', ['𖹶']), ('𖹗', ['𖹷']),
  ('𖹘', ['𖹸']), ('𖹙', ['𖹹']), ('𖹚', ['𖹺']),
  ('𖹛', ['𖹻']), ('𖹜', ['𖹼']), ('𖹝', ['𖹽']),
  ('𖹞', ['𖹾']), ('𖹟', ['𖹿']), ('𞤀', ['𞤢']),
  ('𞤁', ['𞤣']), ('𞤂', ['𞤤']), ('𞤃', ['𞤥']),
  ('𞤄', ['𞤦']), ('𞤅', ['𞤧']), ('𞤆', ['𞤨']),
  ('𞤇', ['𞤩']), ('𞤈', ['𞤪']), ('𞤉', ['𞤫']),
  ('𞤊', ['𞤬']), ('𞤋', ['𞤭']), ('𞤌', ['𞤮']),
  ('𞤍', ['𞤯']), ('𞤎', ['𞤰']), ('𞤏', ['𞤱']),
  ('𞤐', ['𞤲']), ('𞤑', ['𞤳']), ('𞤒', ['𞤴']),
  ('𞤓', ['𞤵']), ('𞤔', ['𞤶']), ('𞤕', ['𞤷']),
  ('𞤖', ['𞤸']), ('𞤗', ['𞤹']), ('𞤘', ['𞤺']),
  ('𞤙', ['𞤻']), ('𞤚', ['𞤼']), ('𞤛', ['𞤽']),
  ('𞤜', ['𞤾']), ('𞤝', ['𞤿']), ('𞤞', ['𞥀']),
  ('𞤟', ['𞥁']), ('𞤠', ['𞥂']), ('𞤡', ['𞥃'])]

/-- The lowercase mapping table used by Rust `str::to_lowercase`
(`conversions::to_lower`): code point to lowercase expansion, for every
character whose lowercase differs from itself. -/
def LOWERCASE_TABLE : List (Char × List Char) :=
  LT_0 ++ (LT_1 ++ (LT_2 ++ (LT_3 ++ LT_4)))

/-- Binary tree of natural numbers, used below as an efficiently
evaluable membership function over the table's key code points. -/
inductive NatTree where
  | leaf
  | node (l : NatTree) (v : Nat) (r : NatTree)

/-- Search-tree membership.  No ordering invariant is needed anywhere:
`tree_mem` is used only as a separator — a single deterministic function
that answers `true` on every table key and `false` on every table output,
which makes the two sets disjoint. -/
def tree_mem (n : Nat) : NatTree → Bool
  | .leaf => false
  | .node l v r => if n < v then tree_mem n l else if v < n then tree_mem n r else true

/-- Balanced search tree over the key code points of `LOWERCASE_TABLE`. -/
def KEYTREE : NatTree :=
  (.node (.node (.node (.node (.node (.node (.node (.node (.node (.node .leaf 0x41 .leaf) 0x42
  (.node .leaf 0x43 (.node .leaf 0x44 .leaf))) 0x45 (.node (.node .leaf 0x46 (.node .leaf 0x47
  .leaf)) 0x48 (.node .leaf 0x49 (.node .leaf 0x4a .leaf)))) 0x4b (.node (.node (.node .leaf 0x4c
  .leaf) 0x4d (.node .leaf 0x4e (.node .leaf 0x4f .leaf))) 0x50 (.node (.node .leaf 0x51 (.node
  .leaf 0x52 .leaf)) 0x53 (.node .leaf 0x54 (.node .leaf 0x55 .leaf))))) 0x56 (.node (.node
  (.node (.node .leaf 0x57 .leaf) 0x58 (.node .leaf 0x59 (.node .leaf 0x5a .leaf))) 0xc0 (.node
  (.node .leaf 0xc1 (.node .leaf 0xc2 .leaf)) 0xc3 (.node .leaf 0xc4 (.node .leaf 0xc5 .leaf))))
  0xc6 (.node (.node (.node .leaf 0xc7 .leaf) 0xc8 (.node .leaf 0xc9 (.node .leaf 0xca .leaf)))
  0xcb (.node (.node .leaf 0xcc (.node .leaf 0xcd .leaf)) 0xce (.node .leaf 0xcf (.node .leaf
  0xd0 .leaf)))))) 0xd1 (.node (.node (.node (.node (.node .leaf 0xd2 .leaf) 0xd3 (.node .leaf
  0xd4 (.node .leaf 0xd5 .leaf))) 0xd6 (.node (.node .leaf 0xd8 (.node .leaf 0xd9 .leaf)) 0xda
  (.node .leaf 0xdb (.node .leaf 0xdc .leaf)))) 0xdd (.node (.node (.node .leaf 0xde .leaf) 0x100
  (.node .leaf 0x102 (.node .leaf 0x104 .leaf))) 0x106 (.node (.node .leaf 0x108 (.node .leaf
  0x10a .leaf)) 0x10c (.node .leaf 0x10e (.node .leaf 0x110 .leaf))))) 0x112 (.node (.node (.node
  (.node .leaf 0x114 .leaf) 0x116 (.node .leaf 0x118 (.node .leaf 0x11a .leaf))) 0x11c (.node
  (.node .leaf 0x11e (.node .leaf 0x120 .leaf)) 0x122 (.node .leaf 0x124 (.node .leaf 0x126
  .leaf)))) 0x128 (.node (.node (.node .leaf 0x12a (.node .leaf 0x12c .leaf)) 0x12e (.node .leaf
  0x130 (.node .leaf 0x132 .leaf))) 0x134 (.node (.node .leaf 0x136 (.node .leaf 0x139 .leaf))
  0x13b (.node .leaf 0x13d (.node .leaf 0x13f .leaf))))))) 0x141 (.node (.node (.node (.node
  (.node (.node .leaf 0x143 .leaf) 0x145 (.node .leaf 0x147 (.node .leaf 0x14a .leaf))) 0x14c
  (.node (.node .leaf 0x14e (.node .leaf 0x150 .leaf)) 0x152 (.node .leaf 0x154 (.node .leaf
  0x156 .leaf)))) 0x158 (.node (.node (.node .leaf 0x15a .leaf) 0x15c (.node .leaf 0x15e (.node
  .leaf 0x160 .leaf))) 0x162 (.node (.node .leaf 0x164 (.node .leaf 0x166 .leaf)) 0x168 (.node
  .leaf 0x16a (.node .leaf 0x16c .leaf))))) 0x16e (.node (.node (.node (.node .leaf 0x170 .leaf)
  0x172 (.node .leaf 0x174 (.node .leaf 0x176 .leaf))) 0x178 (.node (.node .leaf 0x179 (.node
  .leaf 0x17b .leaf)) 0x17d (.node .leaf 0x181 (.node .leaf 0x182 .leaf)))) 0x184 (.node (.node
  (.node .leaf 0x186 (.node .leaf 0x187 .leaf)) 0x189 (.node .leaf 0x18a (.node .leaf 0x18b
  .leaf))) 0x18e (.node (.node .leaf 0x18f (.node .leaf 0x190 .leaf)) 0x191 (.node .leaf 0x193
  (.node .leaf 0x194 .leaf)))))) 0x196 (.node (.node (.node (.node (.node .leaf 0x197 .leaf)
  0x198 (.node .leaf 0x19c (.node .leaf 0x19d .leaf))) 0x19f (.node (.node .leaf 0x1a0 (.node
  .leaf 0x1a2 .leaf)) 0x1a4 (.node .leaf 0x1a6 (.node .leaf 0x1a7 .leaf)))) 0x1a9 (.node (.node
  (.node .leaf 0x1ac .leaf) 0x1ae (.node .leaf 0x1af (.node .leaf 0x1b1 .leaf))) 0x1b2 (.node
  (.node .leaf 0x1b3 (.node .leaf 0x1b5 .leaf)) 0x1b7 (.node .leaf 0x1b8 (.node .leaf 0x1bc
  .leaf))))) 0x1c4 (.node (.node (.node (.node .leaf 0x1c5 .leaf) 0x1c7 (.node .leaf 0x1c8 (.node
  .leaf 0x1ca .leaf))) 0x1cb (.node (.node .leaf 0x1cd (.node .leaf 0x1cf .leaf)) 0x1d1 (.node
  .leaf 0x1d3 (.node .leaf 0x1d5 .leaf)))) 0x1d7 (.node (.node (.node .leaf 0x1d9 (.node .leaf
  0x1db .leaf)) 0x1de (.node .leaf 0x1e0 (.node .leaf 0x1e2 .leaf))) 0x1e4 (.node (.node .leaf
  0x1e6 (.node .leaf 0x1e8 .leaf)) 0x1ea (.node .leaf 0x1ec (.node .leaf 0x1ee .leaf))))))))
  0x1f1 (.node (.node (.node (.node (.node (.node (.node .leaf 0x1f2 .leaf) 0x1f4 (.node .leaf
  0x1f6 (.node .leaf 0x1f7 .leaf))) 0x1f8 (.node (.node .leaf 0x1fa (.node .leaf 0x1fc .leaf))
  0x1fe (.node .leaf 0x200 (.node .leaf 0x202 .leaf)))) 0x204 (.node (.node (.node .leaf 0x206
  .leaf) 0x208 (.node .leaf 0x20a (.node .leaf 0x20c .leaf))) 0x20e (.node (.node .leaf 0x210
  (.node .leaf 0x212 .leaf)) 0x214 (.node .leaf 0x216 (.node .leaf 0x218 .leaf))))) 0x21a (.node
  (.node (.node (.node .leaf 0x21c .leaf) 0x21e (.node .leaf 0x220 (.node .leaf 0x222 .leaf)))
  0x224 (.node (.node .leaf 0x226 (.node .leaf 0x228 .leaf)) 0x22a (.node .leaf 0x22c (.node
  .leaf 0x22e .leaf)))) 0x230 (.node (.node (.node .leaf 0x232 .leaf) 0x23a (.node .leaf 0x23b
  (.node .leaf 0x23d .leaf))) 0x23e (.node (.node .leaf 0x241 (.node .leaf 0x243 .leaf)) 0x244
  (.node .leaf 0x245 (.node .leaf 0x246 .leaf)))))) 0x248 (.node (.node (.node (.node (.node
  .leaf 0x24a .leaf) 0x24c (.node .leaf 0x24e (.node .leaf 0x370 .leaf))) 0x372 (.node (.node
  .leaf 0x376 (.node .leaf 0x37f .leaf)) 0x386 (.node .leaf 0x388 (.node .leaf 0x389 .leaf))))
  0x38a (.node (.node (.node .leaf 0x38c .leaf) 0x38e (.node .leaf 0x38f (.node .leaf 0x391
  .leaf))) 0x392 (.node (.node .leaf 0x393 (.node .leaf 0x394 .leaf)) 0x395 (.node .leaf 0x396
  (.node .leaf 0x397 .leaf))))) 0x398 (.node (.node (.node (.node .leaf 0x399 .leaf) 0x39a (.node
  .leaf 0x39b (.node .leaf 0x39c .leaf))) 0x39d (.node (.node .leaf 0x39e (.node .leaf 0x39f
  .leaf)) 0x3a0 (.node .leaf 0x3a1 (.node .leaf 0x3a3 .leaf)))) 0x3a4 (.node (.node (.node .leaf
  0x3a5 (.node .leaf 0x3a6 .leaf)) 0x3a7 (.node .leaf 0x3a8 (.node .leaf 0x3a9 .leaf))) 0x3aa
  (.node (.node .leaf 0x3ab (.node .leaf 0x3cf .leaf)) 0x3d8 (.node .leaf 0x3da (.node .leaf
  0x3dc .leaf))))))) 0x3de (.node (.node (.node (.node (.node (.node .leaf 0x3e0 .leaf) 0x3e2
  (.node .leaf 0x3e4 (.node .leaf 0x3e6 .leaf))) 0x3e8 (.node (.node .leaf 0x3ea (.node .leaf
  0x3ec .leaf)) 0x3ee (.node .leaf 0x3f4 (.node .leaf 0x3f7 .leaf)))) 0x3f9 (.node (.node (.node
  .leaf 0x3fa .leaf) 0x3fd (.node .leaf 0x3fe (.node .leaf 0x3ff .leaf))) 0x400 (.node (.node
  .leaf 0x401 (.node .leaf 0x402 .leaf)) 0x403 (.node .leaf 0x404 (.node .leaf 0x405 .leaf)))))
  0x406 (.node (.node (.node (.node .leaf 0x407 .leaf) 0x408 (.node .leaf 0x409 (.node .leaf
  0x40a .leaf))) 0x40b (.node (.node .leaf 0x40c (.node .leaf 0x40d .leaf)) 0x40e (.node .leaf
  0x40f (.node .leaf 0x410 .leaf)))) 0x411 (.node (.node (.node .leaf 0x412 (.node .leaf 0x413
  .leaf)) 0x414 (.node .leaf 0x415 (.node .leaf 0x416 .leaf))) 0x417 (.node (.node .leaf 0x418
  (.node .leaf 0x419 .leaf)) 0x41a (.node .leaf 0x41b (.node .leaf 0x41c .leaf)))))) 0x41d (.node
  (.node (.node (.node (.node .leaf 0x41e .leaf) 0x41f (.node .leaf 0x420 (.node .leaf 0x421
  .leaf))) 0x422 (.node (.node .leaf 0x423 (.node .leaf 0x424 .leaf)) 0x425 (.node .leaf 0x426
  (.node .leaf 0x427 .leaf)))) 0x428 (.node (.node (.node .leaf 0x429 .leaf) 0x42a (.node .leaf
  0x42b (.node .leaf 0x42c .leaf))) 0x42d (.node (.node .leaf 0x42e (.node .leaf 0x42f .leaf))
  0x460 (.node .leaf 0x462 (.node .leaf 0x464 .leaf))))) 0x466 (.node (.node (.node (.node .leaf
  0x468 .leaf) 0x46a (.node .leaf 0x46c (.node .leaf 0x46e .leaf))) 0x470 (.node (.node .leaf
  0x472 (.node .leaf 0x474 .leaf)) 0x476 (.node .leaf 0x478 (.node .leaf 0x47a .leaf)))) 0x47c
  (.node (.node (.node .leaf 0x47e (.node .leaf 0x480 .leaf)) 0x48a (.node .leaf 0x48c (.node
  .leaf 0x48e .leaf))) 0x490 (.node (.node .leaf 0x492 (.node .leaf 0x494 .leaf)) 0x496 (.node
  .leaf 0x498 (.node .leaf 0x49a .leaf))))))))) 0x49c (.node (.node (.node (.node (.node (.node
  (.node (.node .leaf 0x49e .leaf) 0x4a0 (.node .leaf 0x4a2 (.node .leaf 0x4a4 .leaf))) 0x4a6
  (.node (.node .leaf 0x4a8 (.node .leaf 0x4aa .leaf)) 0x4ac (.node .leaf 0x4ae (.node .leaf
  0x4b0 .leaf)))) 0x4b2 (.node (.node (.node .leaf 0x4b4 .leaf) 0x4b6 (.node .leaf 0x4b8 (.node
  .leaf 0x4ba .leaf))) 0x4bc (.node (.node .leaf 0x4be (.node .leaf 0x4c0 .leaf)) 0x4c1 (.node
  .leaf 0x4c3 (.node .leaf 0x4c5 .leaf))))) 0x4c7 (.node (.node (.node (.node .leaf 0x4c9 .leaf)
  0x4cb (.node .leaf 0x4cd (.node .leaf 0x4d0 .leaf))) 0x4d2 (.node (.node .leaf 0x4d4 (.node
  .leaf 0x4d6 .leaf)) 0x4d8 (.node .leaf 0x4da (.node .leaf 0x4dc .leaf)))) 0x4de (.node (.node
  (.node .leaf 0x4e0 .leaf) 0x4e2 (.node .leaf 0x4e4 (.node .leaf 0x4e6 .leaf))) 0x4e8 (.node
  (.node .leaf 0x4ea (.node .leaf 0x4ec .leaf)) 0x4ee (.node .leaf 0x4f0 (.node .leaf 0x4f2
  .leaf)))))) 0x4f4 (.node (.node (.node (.node (.node .leaf 0x4f6 .leaf) 0x4f8 (.node .leaf
  0x4fa (.node .leaf 0x4fc .leaf))) 0x4fe (.node (.node .leaf 0x500 (.node .leaf 0x502 .leaf))
  0x504 (.node .leaf 0x506 (.node .leaf 0x508 .leaf)))) 0x50a (.node (.node (.node .leaf 0x50c
  .leaf) 0x50e (.node .leaf 0x510 (.node .leaf 0x512 .leaf))) 0x514 (.node (.node .leaf 0x516
  (.node .leaf 0x518 .leaf)) 0x51a (.node .leaf 0x51c (.node .leaf 0x51e .leaf))))) 0x520 (.node
  (.node (.node (.node .leaf 0x522 .leaf) 0x524 (.node .leaf 0x526 (.node .leaf 0x528 .leaf)))
  0x52a (.node (.node .leaf 0x52c (.node .leaf 0x52e .leaf)) 0x531 (.node .leaf 0x532 (.node
  .leaf 0x533 .leaf)))) 0x534 (.node (.node (.node .leaf 0x535 (.node .leaf 0x536 .leaf)) 0x537
  (.node .leaf 0x538 (.node .leaf 0x539 .leaf))) 0x53a (.node (.node .leaf 0x53b (.node .leaf
  0x53c .leaf)) 0x53d (.node .leaf 0x53e (.node .leaf 0x53f .leaf))))))) 0x540 (.node (.node
  (.node (.node (.node (.node .leaf 0x541 .leaf) 0x542 (.node .leaf 0x543 (.node .leaf 0x544
  .leaf))) 0x545 (.node (.node .leaf 0x546 (.node .leaf 0x547 .leaf)) 0x548 (.node .leaf 0x549
  (.node .leaf 0x54a .leaf)))) 0x54b (.node (.node (.node .leaf 0x54c .leaf) 0x54d (.node .leaf
  0x54e (.node .leaf 0x54f .leaf))) 0x550 (.node (.node .leaf 0x551 (.node .leaf 0x552 .leaf))
  0x553 (.node .leaf 0x554 (.node .leaf 0x555 .leaf))))) 0x556 (.node (.node (.node (.node .leaf
  0x10a0 .leaf) 0x10a1 (.node .leaf 0x10a2 (.node .leaf 0x10a3 .leaf))) 0x10a4 (.node (.node
  .leaf 0x10a5 (.node .leaf 0x10a6 .leaf)) 0x10a7 (.node .leaf 0x10a8 (.node .leaf 0x10a9
  .leaf)))) 0x10aa (.node (.node (.node .leaf 0x10ab (.node .leaf 0x10ac .leaf)) 0x10ad (.node
  .leaf 0x10ae (.node .leaf 0x10af .leaf))) 0x10b0 (.node (.node .leaf 0x10b1 (.node .leaf 0x10b2
  .leaf)) 0x10b3 (.node .leaf 0x10b4 (.node .leaf 0x10b5 .leaf)))))) 0x10b6 (.node (.node (.node
  (.node (.node .leaf 0x10b7 .leaf) 0x10b8 (.node .leaf 0x10b9 (.node .leaf 0x10ba .leaf)))
  0x10bb (.node (.node .leaf 0x10bc (.node .leaf 0x10bd .leaf)) 0x10be (.node .leaf 0x10bf (.node
  .leaf 0x10c0 .leaf)))) 0x10c1 (.node (.node (.node .leaf 0x10c2 .leaf) 0x10c3 (.node .leaf
  0x10c4 (.node .leaf 0x10c5 .leaf))) 0x10c7 (.node (.node .leaf 0x10cd (.node .leaf 0x13a0
  .leaf)) 0x13a1 (.node .leaf 0x13a2 (.node .leaf 0x13a3 .leaf))))) 0x13a4 (.node (.node (.node
  (.node .leaf 0x13a5 .leaf) 0x13a6 (.node .leaf 0x13a7 (.node .leaf 0x13a8 .leaf))) 0x13a9
  (.node (.node .leaf 0x13aa (.node .leaf 0x13ab .leaf)) 0x13ac (.node .leaf 0x13ad (.node .leaf
  0x13ae .leaf)))) 0x13af (.node (.node (.node .leaf 0x13b0 (.node .leaf 0x13b1 .leaf)) 0x13b2
  (.node .leaf 0x13b3 (.node .leaf 0x13b4 .leaf))) 0x13b5 (.node (.node .leaf 0x13b6 (.node .leaf
  0x13b7 .leaf)) 0x13b8 (.node .leaf 0x13b9 (.node .leaf 0x13ba .leaf)))))))) 0x13bb (.node
  (.node (.node (.node (.node (.node (.node .leaf 0x13bc .leaf) 0x13bd (.node .leaf 0x13be (.node
  .leaf 0x13bf .leaf))) 0x13c0 (.node (.node .leaf 0x13c1 (.node .leaf 0x13c2 .leaf)) 0x13c3
  (.node .leaf 0x13c4 (.node .leaf 0x13c5 .leaf)))) 0x13c6 (.node (.node (.node .leaf 0x13c7
  .leaf) 0x13c8 (.node .leaf 0x13c9 (.node .leaf 0x13ca .leaf))) 0x13cb (.node (.node .leaf
  0x13cc (.node .leaf 0x13cd .leaf)) 0x13ce (.node .leaf 0x13cf (.node .leaf 0x13d0 .leaf)))))
  0x13d1 (.node (.node (.node (.node .leaf 0x13d2 .leaf) 0x13d3 (.node .leaf 0x13d4 (.node .leaf
  0x13d5 .leaf))) 0x13d6 (.node (.node .leaf 0x13d7 (.node .leaf 0x13d8 .leaf)) 0x13d9 (.node
  .leaf 0x13da (.node .leaf 0x13db .leaf)))) 0x13dc (.node (.node (.node .leaf 0x13dd (.node
  .leaf 0x13de .leaf)) 0x13df (.node .leaf 0x13e0 (.node .leaf 0x13e1 .leaf))) 0x13e2 (.node
  (.node .leaf 0x13e3 (.node .leaf 0x13e4 .leaf)) 0x13e5 (.node .leaf 0x13e6 (.node .leaf 0x13e7
  .leaf)))))) 0x13e8 (.node (.node (.node (.node (.node .leaf 0x13e9 .leaf) 0x13ea (.node .leaf
  0x13eb (.node .leaf 0x13ec .leaf))) 0x13ed (.node (.node .leaf 0x13ee (.node .leaf 0x13ef
  .leaf)) 0x13f0 (.node .leaf 0x13f1 (.node .leaf 0x13f2 .leaf)))) 0x13f3 (.node (.node (.node
  .leaf 0x13f4 .leaf) 0x13f5 (.node .leaf 0x1c90 (.node .leaf 0x1c91 .leaf))) 0x1c92 (.node
  (.node .leaf 0x1c93 (.node .leaf 0x1c94 .leaf)) 0x1c95 (.node .leaf 0x1c96 (.node .leaf 0x1c97
  .leaf))))) 0x1c98 (.node (.node (.node (.node .leaf 0x1c99 .leaf) 0x1c9a (.node .leaf 0x1c9b
  (.node .leaf 0x1c9c .leaf))) 0x1c9d (.node (.node .leaf 0x1c9e (.node .leaf 0x1c9f .leaf))
  0x1ca0 (.node .leaf 0x1ca1 (.node .leaf 0x1ca2 .leaf)))) 0x1ca3 (.node (.node (.node .leaf
  0x1ca4 (.node .leaf 0x1ca5 .leaf)) 0x1ca6 (.node .leaf 0x1ca7 (.node .leaf 0x1ca8 .leaf)))
  0x1ca9 (.node (.node .leaf 0x1caa (.node .leaf 0x1cab .leaf)) 0x1cac (.node .leaf 0x1cad (.node
  .leaf 0x1cae .leaf))))))) 0x1caf (.node (.node (.node (.node (.node (.node .leaf 0x1cb0 .leaf)
  0x1cb1 (.node .leaf 0x1cb2 (.node .leaf 0x1cb3 .leaf))) 0x1cb4 (.node (.node .leaf 0x1cb5
  (.node .leaf 0x1cb6 .leaf)) 0x1cb7 (.node .leaf 0x1cb8 (.node .leaf 0x1cb9 .leaf)))) 0x1cba
  (.node (.node (.node .leaf 0x1cbd .leaf) 0x1cbe (.node .leaf 0x1cbf (.node .leaf 0x1e00
  .leaf))) 0x1e02 (.node (.node .leaf 0x1e04 (.node .leaf 0x1e06 .leaf)) 0x1e08 (.node .leaf
  0x1e0a (.node .leaf 0x1e0c .leaf))))) 0x1e0e (.node (.node (.node (.node .leaf 0x1e10 .leaf)
  0x1e12 (.node .leaf 0x1e14 (.node .leaf 0x1e16 .leaf))) 0x1e18 (.node (.node .leaf 0x1e1a
  (.node .leaf 0x1e1c .leaf)) 0x1e1e (.node .leaf 0x1e20 (.node .leaf 0x1e22 .leaf)))) 0x1e24
  (.node (.node (.node .leaf 0x1e26 (.node .leaf 0x1e28 .leaf)) 0x1e2a (.node .leaf 0x1e2c (.node
  .leaf 0x1e2e .leaf))) 0x1e30 (.node (.node .leaf 0x1e32 (.node .leaf 0x1e34 .leaf)) 0x1e36
  (.node .leaf 0x1e38 (.node .leaf 0x1e3a .leaf)))))) 0x1e3c (.node (.node (.node (.node (.node
  .leaf 0x1e3e .leaf) 0x1e40 (.node .leaf 0x1e42 (.node .leaf 0x1e44 .leaf))) 0x1e46 (.node
  (.node .leaf 0x1e48 (.node .leaf 0x1e4a .leaf)) 0x1e4c (.node .leaf 0x1e4e (.node .leaf 0x1e50
  .leaf)))) 0x1e52 (.node (.node (.node .leaf 0x1e54 .leaf) 0x1e56 (.node .leaf 0x1e58 (.node
  .leaf 0x1e5a .leaf))) 0x1e5c (.node (.node .leaf 0x1e5e (.node .leaf 0x1e60 .leaf)) 0x1e62
  (.node .leaf 0x1e64 (.node .leaf 0x1e66 .leaf))))) 0x1e68 (.node (.node (.node (.node .leaf
  0x1e6a .leaf) 0x1e6c (.node .leaf 0x1e6e (.node .leaf 0x1e70 .leaf))) 0x1e72 (.node (.node
  .leaf 0x1e74 (.node .leaf 0x1e76 .leaf)) 0x1e78 (.node .leaf 0x1e7a (.node .leaf 0x1e7c
  .leaf)))) 0x1e7e (.node (.node (.node .leaf 0x1e80 (.node .leaf 0x1e82 .leaf)) 0x1e84 (.node
  .leaf 0x1e86 (.node .leaf 0x1e88 .leaf))) 0x1e8a (.node (.node .leaf 0x1e8c (.node .leaf 0x1e8e
  .leaf)) 0x1e90 (.node .leaf 0x1e92 (.node .leaf 0x1e94 .leaf)))))))))) 0x1e9e (.node (.node
  (.node (.node (.node (.node (.node (.node (.node .leaf 0x1ea0 .leaf) 0x1ea2 (.node .leaf 0x1ea4
  (.node .leaf 0x1ea6 .leaf))) 0x1ea8 (.node (.node .leaf 0x1eaa (.node .leaf 0x1eac .leaf))
  0x1eae (.node .leaf 0x1eb0 (.node .leaf 0x1eb2 .leaf)))) 0x1eb4 (.node (.node (.node .leaf
  0x1eb6 .leaf) 0x1eb8 (.node .leaf 0x1eba (.node .leaf 0x1ebc .leaf))) 0x1ebe (.node (.node
  .leaf 0x1ec0 (.node .leaf 0x1ec2 .leaf)) 0x1ec4 (.node .leaf 0x1ec6 (.node .leaf 0x1ec8
  .leaf))))) 0x1eca (.node (.node (.node (.node .leaf 0x1ecc .leaf) 0x1ece (.node .leaf 0x1ed0
  (.node .leaf 0x1ed2 .leaf))) 0x1ed4 (.node (.node .leaf 0x1ed6 (.node .leaf 0x1ed8 .leaf))
  0x1eda (.node .leaf 0x1edc (.node .leaf 0x1ede .leaf)))) 0x1ee0 (.node (.node (.node .leaf
  0x1ee2 .leaf) 0x1ee4 (.node .leaf 0x1ee6 (.node .leaf 0x1ee8 .leaf))) 0x1eea (.node (.node
  .leaf 0x1eec (.node .leaf 0x1eee .leaf)) 0x1ef0 (.node .leaf 0x1ef2 (.node .leaf 0x1ef4
  .leaf)))))) 0x1ef6 (.node (.node (.node (.node (.node .leaf 0x1ef8 .leaf) 0x1efa (.node .leaf
  0x1efc (.node .leaf 0x1efe .leaf))) 0x1f08 (.node (.node .leaf 0x1f09 (.node .leaf 0x1f0a
  .leaf)) 0x1f0b (.node .leaf 0x1f0c (.node .leaf 0x1f0d .leaf)))) 0x1f0e (.node (.node (.node
  .leaf 0x1f0f .leaf) 0x1f18 (.node .leaf 0x1f19 (.node .leaf 0x1f1a .leaf))) 0x1f1b (.node
  (.node .leaf 0x1f1c (.node .leaf 0x1f1d .leaf)) 0x1f28 (.node .leaf 0x1f29 (.node .leaf 0x1f2a
  .leaf))))) 0x1f2b (.node (.node (.node (.node .leaf 0x1f2c .leaf) 0x1f2d (.node .leaf 0x1f2e
  (.node .leaf 0x1f2f .leaf))) 0x1f38 (.node (.node .leaf 0x1f39 (.node .leaf 0x1f3a .leaf))
  0x1f3b (.node .leaf 0x1f3c (.node .leaf 0x1f3d .leaf)))) 0x1f3e (.node (.node (.node .leaf
  0x1f3f (.node .leaf 0x1f48 .leaf)) 0x1f49 (.node .leaf 0x1f4a (.node .leaf 0x1f4b .leaf)))
  0x1f4c (.node (.node .leaf 0x1f4d (.node .leaf 0x1f59 .leaf)) 0x1f5b (.node .leaf 0x1f5d (.node
  .leaf 0x1f5f .leaf))))))) 0x1f68 (.node (.node (.node (.node (.node (.node .leaf 0x1f69 .leaf)
  0x1f6a (.node .leaf 0x1f6b (.node .leaf 0x1f6c .leaf))) 0x1f6d (.node (.node .leaf 0x1f6e
  (.node .leaf 0x1f6f .leaf)) 0x1f88 (.node .leaf 0x1f89 (.node .leaf 0x1f8a .leaf)))) 0x1f8b
  (.node (.node (.node .leaf 0x1f8c .leaf) 0x1f8d (.node .leaf 0x1f8e (.node .leaf 0x1f8f
  .leaf))) 0x1f98 (.node (.node .leaf 0x1f99 (.node .leaf 0x1f9a .leaf)) 0x1f9b (.node .leaf
  0x1f9c (.node .leaf 0x1f9d .leaf))))) 0x1f9e (.node (.node (.node (.node .leaf 0x1f9f .leaf)
  0x1fa8 (.node .leaf 0x1fa9 (.node .leaf 0x1faa .leaf))) 0x1fab (.node (.node .leaf 0x1fac
  (.node .leaf 0x1fad .leaf)) 0x1fae (.node .leaf 0x1faf (.node .leaf 0x1fb8 .leaf)))) 0x1fb9
  (.node (.node (.node .leaf 0x1fba (.node .leaf 0x1fbb .leaf)) 0x1fbc (.node .leaf 0x1fc8 (.node
  .leaf 0x1fc9 .leaf))) 0x1fca (.node (.node .leaf 0x1fcb (.node .leaf 0x1fcc .leaf)) 0x1fd8
  (.node .leaf 0x1fd9 (.node .leaf 0x1fda .leaf)))))) 0x1fdb (.node (.node (.node (.node (.node
  .leaf 0x1fe8 .leaf) 0x1fe9 (.node .leaf 0x1fea (.node .leaf 0x1feb .leaf))) 0x1fec (.node
  (.node .leaf 0x1ff8 (.node .leaf 0x1ff9 .leaf)) 0x1ffa (.node .leaf 0x1ffb (.node .leaf 0x1ffc
  .leaf)))) 0x2126 (.node (.node (.node .leaf 0x212a .leaf) 0x212b (.node .leaf 0x2132 (.node
  .leaf 0x2160 .leaf))) 0x2161 (.node (.node .leaf 0x2162 (.node .leaf 0x2163 .leaf)) 0x2164
  (.node .leaf 0x2165 (.node .leaf 0x2166 .leaf))))) 0x2167 (.node (.node (.node (.node .leaf
  0x2168 .leaf) 0x2169 (.node .leaf 0x216a (.node .leaf 0x216b .leaf))) 0x216c (.node (.node
  .leaf 0x216d (.node .leaf 0x216e .leaf)) 0x216f (.node .leaf 0x2183 (.node .leaf 0x24b6
  .leaf)))) 0x24b7 (.node (.node (.node .leaf 0x24b8 (.node .leaf 0x24b9 .leaf)) 0x24ba (.node
  .leaf 0x24bb (.node .leaf 0x24bc .leaf))) 0x24bd (.node (.node .leaf 0x24be (.node .leaf 0x24bf
  .leaf)) 0x24c0 (.node .leaf 0x24c1 (.node .leaf 0x24c2 .leaf)))))))) 0x24c3 (.node (.node
  (.node (.node (.node (.node (.node .leaf 0x24c4 .leaf) 0x24c5 (.node .leaf 0x24c6 (.node .leaf
  0x24c7 .leaf))) 0x24c8 (.node (.node .leaf 0x24c9 (.node .leaf 0x24ca .leaf)) 0x24cb (.node
  .leaf 0x24cc (.node .leaf 0x24cd .leaf)))) 0x24ce (.node (.node (.node .leaf 0x24cf .leaf)
  0x2c00 (.node .leaf 0x2c01 (.node .leaf 0x2c02 .leaf))) 0x2c03 (.node (.node .leaf 0x2c04
  (.node .leaf 0x2c05 .leaf)) 0x2c06 (.node .leaf 0x2c07 (.node .leaf 0x2c08 .leaf))))) 0x2c09
  (.node (.node (.node (.node .leaf 0x2c0a .leaf) 0x2c0b (.node .leaf 0x2c0c (.node .leaf 0x2c0d
  .leaf))) 0x2c0e (.node (.node .leaf 0x2c0f (.node .leaf 0x2c10 .leaf)) 0x2c11 (.node .leaf
  0x2c12 (.node .leaf 0x2c13 .leaf)))) 0x2c14 (.node (.node (.node .leaf 0x2c15 .leaf) 0x2c16
  (.node .leaf 0x2c17 (.node .leaf 0x2c18 .leaf))) 0x2c19 (.node (.node .leaf 0x2c1a (.node .leaf
  0x2c1b .leaf)) 0x2c1c (.node .leaf 0x2c1d (.node .leaf 0x2c1e .leaf)))))) 0x2c1f (.node (.node
  (.node (.node (.node .leaf 0x2c20 .leaf) 0x2c21 (.node .leaf 0x2c22 (.node .leaf 0x2c23
  .leaf))) 0x2c24 (.node (.node .leaf 0x2c25 (.node .leaf 0x2c26 .leaf)) 0x2c27 (.node .leaf
  0x2c28 (.node .leaf 0x2c29 .leaf)))) 0x2c2a (.node (.node (.node .leaf 0x2c2b .leaf) 0x2c2c
  (.node .leaf 0x2c2d (.node .leaf 0x2c2e .leaf))) 0x2c2f (.node (.node .leaf 0x2c60 (.node .leaf
  0x2c62 .leaf)) 0x2c63 (.node .leaf 0x2c64 (.node .leaf 0x2c67 .leaf))))) 0x2c69 (.node (.node
  (.node (.node .leaf 0x2c6b .leaf) 0x2c6d (.node .leaf 0x2c6e (.node .leaf 0x2c6f .leaf)))
  0x2c70 (.node (.node .leaf 0x2c72 (.node .leaf 0x2c75 .leaf)) 0x2c7e (.node .leaf 0x2c7f (.node
  .leaf 0x2c80 .leaf)))) 0x2c82 (.node (.node (.node .leaf 0x2c84 (.node .leaf 0x2c86 .leaf))
  0x2c88 (.node .leaf 0x2c8a (.node .leaf 0x2c8c .leaf))) 0x2c8e (.node (.node .leaf 0x2c90
  (.node .leaf 0x2c92 .leaf)) 0x2c94 (.node .leaf 0x2c96 (.node .leaf 0x2c98 .leaf))))))) 0x2c9a
  (.node (.node (.node (.node (.node (.node .leaf 0x2c9c .leaf) 0x2c9e (.node .leaf 0x2ca0 (.node
  .leaf 0x2ca2 .leaf))) 0x2ca4 (.node (.node .leaf 0x2ca6 (.node .leaf 0x2ca8 .leaf)) 0x2caa
  (.node .leaf 0x2cac (.node .leaf 0x2cae .leaf)))) 0x2cb0 (.node (.node (.node .leaf 0x2cb2
  .leaf) 0x2cb4 (.node .leaf 0x2cb6 (.node .leaf 0x2cb8 .leaf))) 0x2cba (.node (.node .leaf
  0x2cbc (.node .leaf 0x2cbe .leaf)) 0x2cc0 (.node .leaf 0x2cc2 (.node .leaf 0x2cc4 .leaf)))))
  0x2cc6 (.node (.node (.node (.node .leaf 0x2cc8 .leaf) 0x2cca (.node .leaf 0x2ccc (.node .leaf
  0x2cce .leaf))) 0x2cd0 (.node (.node .leaf 0x2cd2 (.node .leaf 0x2cd4 .leaf)) 0x2cd6 (.node
  .leaf 0x2cd8 (.node .leaf 0x2cda .leaf)))) 0x2cdc (.node (.node (.node .leaf 0x2cde (.node
  .leaf 0x2ce0 .leaf)) 0x2ce2 (.node .leaf 0x2ceb (.node .leaf 0x2ced .leaf))) 0x2cf2 (.node
  (.node .leaf 0xa640 (.node .leaf 0xa642 .leaf)) 0xa644 (.node .leaf 0xa646 (.node .leaf 0xa648
  .leaf)))))) 0xa64a (.node (.node (.node (.node (.node .leaf 0xa64c .leaf) 0xa64e (.node .leaf
  0xa650 (.node .leaf 0xa652 .leaf))) 0xa654 (.node (.node .leaf 0xa656 (.node .leaf 0xa658
  .leaf)) 0xa65a (.node .leaf 0xa65c (.node .leaf 0xa65e .leaf)))) 0xa660 (.node (.node (.node
  .leaf 0xa662 .leaf) 0xa664 (.node .leaf 0xa666 (.node .leaf 0xa668 .leaf))) 0xa66a (.node
  (.node .leaf 0xa66c (.node .leaf 0xa680 .leaf)) 0xa682 (.node .leaf 0xa684 (.node .leaf 0xa686
  .leaf))))) 0xa688 (.node (.node (.node (.node .leaf 0xa68a .leaf) 0xa68c (.node .leaf 0xa68e
  (.node .leaf 0xa690 .leaf))) 0xa692 (.node (.node .leaf 0xa694 (.node .leaf 0xa696 .leaf))
  0xa698 (.node .leaf 0xa69a (.node .leaf 0xa722 .leaf)))) 0xa724 (.node (.node (.node .leaf
  0xa726 (.node .leaf 0xa728 .leaf)) 0xa72a (.node .leaf 0xa72c (.node .leaf 0xa72e .leaf)))
  0xa732 (.node (.node .leaf 0xa734 (.node .leaf 0xa736 .leaf)) 0xa738 (.node .leaf 0xa73a (.node
  .leaf 0xa73c .leaf))))))))) 0xa73e (.node (.node (.node (.node (.node (.node (.node (.node
  .leaf 0xa740 .leaf) 0xa742 (.node .leaf 0xa744 (.node .leaf 0xa746 .leaf))) 0xa748 (.node
  (.node .leaf 0xa74a (.node .leaf 0xa74c .leaf)) 0xa74e (.node .leaf 0xa750 (.node .leaf 0xa752
  .leaf)))) 0xa754 (.node (.node (.node .leaf 0xa756 .leaf) 0xa758 (.node .leaf 0xa75a (.node
  .leaf 0xa75c .leaf))) 0xa75e (.node (.node .leaf 0xa760 (.node .leaf 0xa762 .leaf)) 0xa764
  (.node .leaf 0xa766 (.node .leaf 0xa768 .leaf))))) 0xa76a (.node (.node (.node (.node .leaf
  0xa76c .leaf) 0xa76e (.node .leaf 0xa779 (.node .leaf 0xa77b .leaf))) 0xa77d (.node (.node
  .leaf 0xa77e (.node .leaf 0xa780 .leaf)) 0xa782 (.node .leaf 0xa784 (.node .leaf 0xa786
  .leaf)))) 0xa78b (.node (.node (.node .leaf 0xa78d .leaf) 0xa790 (.node .leaf 0xa792 (.node
  .leaf 0xa796 .leaf))) 0xa798 (.node (.node .leaf 0xa79a (.node .leaf 0xa79c .leaf)) 0xa79e
  (.node .leaf 0xa7a0 (.node .leaf 0xa7a2 .leaf)))))) 0xa7a4 (.node (.node (.node (.node (.node
  .leaf 0xa7a6 .leaf) 0xa7a8 (.node .leaf 0xa7aa (.node .leaf 0xa7ab .leaf))) 0xa7ac (.node
  (.node .leaf 0xa7ad (.node .leaf 0xa7ae .leaf)) 0xa7b0 (.node .leaf 0xa7b1 (.node .leaf 0xa7b2
  .leaf)))) 0xa7b3 (.node (.node (.node .leaf 0xa7b4 .leaf) 0xa7b6 (.node .leaf 0xa7b8 (.node
  .leaf 0xa7ba .leaf))) 0xa7bc (.node (.node .leaf 0xa7be (.node .leaf 0xa7c0 .leaf)) 0xa7c2
  (.node .leaf 0xa7c4 (.node .leaf 0xa7c5 .leaf))))) 0xa7c6 (.node (.node (.node (.node .leaf
  0xa7c7 .leaf) 0xa7c9 (.node .leaf 0xa7d0 (.node .leaf 0xa7d6 .leaf))) 0xa7d8 (.node (.node
  .leaf 0xa7f5 (.node .leaf 0xff21 .leaf)) 0xff22 (.node .leaf 0xff23 (.node .leaf 0xff24
  .leaf)))) 0xff25 (.node (.node (.node .leaf 0xff26 (.node .leaf 0xff27 .leaf)) 0xff28 (.node
  .leaf 0xff29 (.node .leaf 0xff2a .leaf))) 0xff2b (.node (.node .leaf 0xff2c (.node .leaf 0xff2d
  .leaf)) 0xff2e (.node .leaf 0xff2f (.node .leaf 0xff30 .leaf))))))) 0xff31 (.node (.node (.node
  (.node (.node (.node .leaf 0xff32 .leaf) 0xff33 (.node .leaf 0xff34 (.node .leaf 0xff35
  .leaf))) 0xff36 (.node (.node .leaf 0xff37 (.node .leaf 0xff38 .leaf)) 0xff39 (.node .leaf
  0xff3a (.node .leaf 0x10400 .leaf)))) 0x10401 (.node (.node (.node .leaf 0x10402 .leaf) 0x10403
  (.node .leaf 0x10404 (.node .leaf 0x10405 .leaf))) 0x10406 (.node (.node .leaf 0x10407 (.node
  .leaf 0x10408 .leaf)) 0x10409 (.node .leaf 0x1040a (.node .leaf 0x1040b .leaf))))) 0x1040c
  (.node (.node (.node (.node .leaf 0x1040d .leaf) 0x1040e (.node .leaf 0x1040f (.node .leaf
  0x10410 .leaf))) 0x10411 (.node (.node .leaf 0x10412 (.node .leaf 0x10413 .leaf)) 0x10414
  (.node .leaf 0x10415 (.node .leaf 0x10416 .leaf)))) 0x10417 (.node (.node (.node .leaf 0x10418
  (.node .leaf 0x10419 .leaf)) 0x1041a (.node .leaf 0x1041b (.node .leaf 0x1041c .leaf))) 0x1041d
  (.node (.node .leaf 0x1041e (.node .leaf 0x1041f .leaf)) 0x10420 (.node .leaf 0x10421 (.node
  .leaf 0x10422 .leaf)))))) 0x10423 (.node (.node (.node (.node (.node .leaf 0x10424 .leaf)
  0x10425 (.node .leaf 0x10426 (.node .leaf 0x10427 .leaf))) 0x104b0 (.node (.node .leaf 0x104b1
  (.node .leaf 0x104b2 .leaf)) 0x104b3 (.node .leaf 0x104b4 (.node .leaf 0x104b5 .leaf))))
  0x104b6 (.node (.node (.node .leaf 0x104b7 .leaf) 0x104b8 (.node .leaf 0x104b9 (.node .leaf
  0x104ba .leaf))) 0x104bb (.node (.node .leaf 0x104bc (.node .leaf 0x104bd .leaf)) 0x104be
  (.node .leaf 0x104bf (.node .leaf 0x104c0 .leaf))))) 0x104c1 (.node (.node (.node (.node .leaf
  0x104c2 .leaf) 0x104c3 (.node .leaf 0x104c4 (.node .leaf 0x104c5 .leaf))) 0x104c6 (.node (.node
  .leaf 0x104c7 (.node .leaf 0x104c8 .leaf)) 0x104c9 (.node .leaf 0x104ca (.node .leaf 0x104cb
  .leaf)))) 0x104cc (.node (.node (.node .leaf 0x104cd (.node .leaf 0x104ce .leaf)) 0x104cf
  (.node .leaf 0x104d0 (.node .leaf 0x104d1 .leaf))) 0x104d2 (.node (.node .leaf 0x104d3 (.node
  .leaf 0x10570 .leaf)) 0x10571 (.node .leaf 0x10572 (.node .leaf 0x10573 .leaf)))))))) 0x10574
  (.node (.node (.node (.node (.node (.node (.node .leaf 0x10575 .leaf) 0x10576 (.node .leaf
  0x10577 (.node .leaf 0x10578 .leaf))) 0x10579 (.node (.node .leaf 0x1057a (.node .leaf 0x1057c
  .leaf)) 0x1057d (.node .leaf 0x1057e (.node .leaf 0x1057f .leaf)))) 0x10580 (.node (.node
  (.node .leaf 0x10581 .leaf) 0x10582 (.node .leaf 0x10583 (.node .leaf 0x10584 .leaf))) 0x10585
  (.node (.node .leaf 0x10586 (.node .leaf 0x10587 .leaf)) 0x10588 (.node .leaf 0x10589 (.node
  .leaf 0x1058a .leaf))))) 0x1058c (.node (.node (.node (.node .leaf 0x1058d .leaf) 0x1058e
  (.node .leaf 0x1058f (.node .leaf 0x10590 .leaf))) 0x10591 (.node (.node .leaf 0x10592 (.node
  .leaf 0x10594 .leaf)) 0x10595 (.node .leaf 0x10c80 (.node .leaf 0x10c81 .leaf)))) 0x10c82
  (.node (.node (.node .leaf 0x10c83 (.node .leaf 0x10c84 .leaf)) 0x10c85 (.node .leaf 0x10c86
  (.node .leaf 0x10c87 .leaf))) 0x10c88 (.node (.node .leaf 0x10c89 (.node .leaf 0x10c8a .leaf))
  0x10c8b (.node .leaf 0x10c8c (.node .leaf 0x10c8d .leaf)))))) 0x10c8e (.node (.node (.node
  (.node (.node .leaf 0x10c8f .leaf) 0x10c90 (.node .leaf 0x10c91 (.node .leaf 0x10c92 .leaf)))
  0x10c93 (.node (.node .leaf 0x10c94 (.node .leaf 0x10c95 .leaf)) 0x10c96 (.node .leaf 0x10c97
  (.node .leaf 0x10c98 .leaf)))) 0x10c99 (.node (.node (.node .leaf 0x10c9a .leaf) 0x10c9b (.node
  .leaf 0x10c9c (.node .leaf 0x10c9d .leaf))) 0x10c9e (.node (.node .leaf 0x10c9f (.node .leaf
  0x10ca0 .leaf)) 0x10ca1 (.node .leaf 0x10ca2 (.node .leaf 0x10ca3 .leaf))))) 0x10ca4 (.node
  (.node (.node (.node .leaf 0x10ca5 .leaf) 0x10ca6 (.node .leaf 0x10ca7 (.node .leaf 0x10ca8
  .leaf))) 0x10ca9 (.node (.node .leaf 0x10caa (.node .leaf 0x10cab .leaf)) 0x10cac (.node .leaf
  0x10cad (.node .leaf 0x10cae .leaf)))) 0x10caf (.node (.node (.node .leaf 0x10cb0 (.node .leaf
  0x10cb1 .leaf)) 0x10cb2 (.node .leaf 0x118a0 (.node .leaf 0x118a1 .leaf))) 0x118a2 (.node
  (.node .leaf 0x118a3 (.node .leaf 0x118a4 .leaf)) 0x118a5 (.node .leaf 0x118a6 (.node .leaf
  0x118a7 .leaf))))))) 0x118a8 (.node (.node (.node (.node (.node (.node .leaf 0x118a9 .leaf)
  0x118aa (.node .leaf 0x118ab (.node .leaf 0x118ac .leaf))) 0x118ad (.node (.node .leaf 0x118ae
  (.node .leaf 0x118af .leaf)) 0x118b0 (.node .leaf 0x118b1 (.node .leaf 0x118b2 .leaf))))
  0x118b3 (.node (.node (.node .leaf 0x118b4 .leaf) 0x118b5 (.node .leaf 0x118b6 (.node .leaf
  0x118b7 .leaf))) 0x118b8 (.node (.node .leaf 0x118b9 (.node .leaf 0x118ba .leaf)) 0x118bb
  (.node .leaf 0x118bc (.node .leaf 0x118bd .leaf))))) 0x118be (.node (.node (.node (.node .leaf
  0x118bf .leaf) 0x16e40 (.node .leaf 0x16e41 (.node .leaf 0x16e42 .leaf))) 0x16e43 (.node (.node
  .leaf 0x16e44 (.node .leaf 0x16e45 .leaf)) 0x16e46 (.node .leaf 0x16e47 (.node .leaf 0x16e48
  .leaf)))) 0x16e49 (.node (.node (.node .leaf 0x16e4a (.node .leaf 0x16e4b .leaf)) 0x16e4c
  (.node .leaf 0x16e4d (.node .leaf 0x16e4e .leaf))) 0x16e4f (.node (.node .leaf 0x16e50 (.node
  .leaf 0x16e51 .leaf)) 0x16e52 (.node .leaf 0x16e53 (.node .leaf 0x16e54 .leaf)))))) 0x16e55
  (.node (.node (.node (.node (.node .leaf 0x16e56 .leaf) 0x16e57 (.node .leaf 0x16e58 (.node
  .leaf 0x16e59 .leaf))) 0x16e5a (.node (.node .leaf 0x16e5b (.node .leaf 0x16e5c .leaf)) 0x16e5d
  (.node .leaf 0x16e5e (.node .leaf 0x16e5f .leaf)))) 0x1e900 (.node (.node (.node .leaf 0x1e901
  .leaf) 0x1e902 (.node .leaf 0x1e903 (.node .leaf 0x1e904 .leaf))) 0x1e905 (.node (.node .leaf
  0x1e906 (.node .leaf 0x1e907 .leaf)) 0x1e908 (.node .leaf 0x1e909 (.node .leaf 0x1e90a
  .leaf))))) 0x1e90b (.node (.node (.node (.node .leaf 0x1e90c .leaf) 0x1e90d (.node .leaf
  0x1e90e (.node .leaf 0x1e90f .leaf))) 0x1e910 (.node (.node .leaf 0x1e911 (.node .leaf 0x1e912
  .leaf)) 0x1e913 (.node .leaf 0x1e914 (.node .leaf 0x1e915 .leaf)))) 0x1e916 (.node (.node
  (.node .leaf 0x1e917 (.node .leaf 0x1e918 .leaf)) 0x1e919 (.node .leaf 0x1e91a (.node .leaf
  0x1e91b .leaf))) 0x1e91c (.node (.node .leaf 0x1e91d (.node .leaf 0x1e91e .leaf)) 0x1e91f
  (.node .leaf 0x1e920 (.node .leaf 0x1e921 .leaf)))))))))))

/-- Association-list lookup in the lowercase mapping table. -/
def tbl_lookup : List (Char × List Char) → Char → Option (List Char)
  | [], _ => none
  | (k, v) :: rest, c => if c = k then some v else tbl_lookup rest c

/-- Per-character full lowercase mapping (`conversions::to_lower` in Rust
std): the table expansion when the character has one, the character
itself otherwise. -/
def to_lower_char (c : Char) : List Char :=
  match tbl_lookup LOWERCASE_TABLE c with
  | some l => l
  | none => [c]

/-- The character loop of Rust `str::to_lowercase`, with `pre` the
reversed prefix of the original string already consumed.  `Σ` lowercases
to final `ς` or medial `σ` depending on the Final_Sigma condition on the
surrounding text; the condition (in Rust, Case_Ignorable and Cased
property lookups over the preceding and following characters) is
abstracted as the parameter `sf`, and every theorem below is proved for
all `sf`, hence in particular for Rust's actual predicate — its value
cannot matter, as both branches produce a stable lowercase sigma. -/
def to_lowercase_go (sf : List Char → List Char → Bool) :
    List Char → List Char → List Char
  | _, [] => []
  | pre, c :: rest =>
    (if c = 'Σ' then (if sf pre rest then ['ς'] else ['σ']) else to_lower_char c)
      ++ to_lowercase_go sf (c :: pre) rest

/-- Rust `str::to_lowercase` over a list of characters. -/
def to_lowercase (sf : List Char → List Char → Bool) (s : List Char) : List Char :=
  to_lowercase_go sf [] s

/-- `normalize_string` of src/alphabet.rs with the full model of
`str::to_lowercase`: lowercase, map `normalize_char` over every
character, then rewrite `rn` to `m` and `vv` to `w`. -/
def normalize_string_unicode (sf : List Char → List Char → Bool) (s : List Char) : List Char :=
  replacePair 'v' 'v' 'w' (replacePair 'r' 'n' 'm' ((to_lowercase sf s).map normalize_char))

/-! ### The lookup table and rank collection -/

theorem CHECK_LOOKUP_length : CHECK_LOOKUP.length = 256 := by decide

theorem char_rank_eq_none_iff (c : Char) : char_rank c = none ↔ 256 ≤ c.toNat := by
  rw [char_rank, List.get?_eq_none, CHECK_LOOKUP_length]

theorem char_rank_isSome (c : Char) (h : c.toNat < 256) : (char_rank c).isSome := by
  rcases hr : char_rank c with _ | r
  · rw [char_rank_eq_none_iff] at hr
    omega
  · rfl

theorem rank_mem_isSome : ∀ c ∈ CHECK_ALPHABET, (char_rank c).isSome := by decide

theorem mapRanks_ok (s : List Char) (h : ∀ c ∈ s, (char_rank c).isSome) :
    mapRanks s = .ok (s.map (fun c => (char_rank c).getD 0)) := by
  induction s with
  | nil => rfl
  | cons c rest ih =>
    have hc := h c (by simp)
    rcases hr : char_rank c with _ | r
    · rw [hr] at hc
      simp at hc
    · rw [mapRanks, hr, ih (fun x hx => h x (by simp [hx]))]
      simp [hr]

theorem mapRanks_error_of (s : List Char) (h : ∃ c ∈ s, char_rank c = none) :
    mapRanks s = .error .InvalidCharacter := by
  induction s with
  | nil => simp at h
  | cons c rest ih =>
    rcases hr : char_rank c with _ | r
    · rw [mapRanks, hr]
    · rcases h with ⟨x, hx, hnone⟩
      rcases List.mem_cons.mp hx with rfl | hx
      · rw [hr] at hnone
        cases hnone
      · rw [mapRanks, hr, ih ⟨x, hx, hnone⟩]

theorem mapRanks_error_elim (s : List Char) :
    ∀ e, mapRanks s = .error e → e = .InvalidCharacter := by
  induction s with
  | nil => intro e h; cases h
  | cons c rest ih =>
    intro e h
    rw [mapRanks] at h
    rcases hr : char_rank c with _ | r <;> rw [hr] at h
    · injection h with h'
      exact h'.symm
    · rcases hm : mapRanks rest with e' | rs <;> rw [hm] at h
      · injection h with h'
        exact h' ▸ ih e' hm
      · cases h

/-! ### Structure of `calculate_check_char` -/

theorem CHECK_ALPHABET_length : CHECK_ALPHABET.length = 23 := rfl

theorem checkedRem_alpha (y : Nat) : checkedRem y CHECK_ALPHABET.length = some (y % 23) := rfl

theorem cc_formula (s : List Char) (h : ∀ c ∈ s, (char_rank c).isSome) :
    calculate_check_char s = .ok (CHECK_ALPHABET.getD (rank_sum s % U64_SIZE % 23) 'a') := by
  rw [calculate_check_char, mapRanks_ok s h]
  dsimp only
  have hfold : List.foldl (· + ·) 0 (s.map fun c => (char_rank c).getD 0) = rank_sum s :=
    List.sum_eq_foldl.symm
  rw [hfold, checkedRem_alpha]
  dsimp only
  have hidx : rank_sum s % U64_SIZE % 23 < CHECK_ALPHABET.length := by
    rw [CHECK_ALPHABET_length]
    exact Nat.mod_lt _ (by norm_num)
  rw [List.get?_eq_get hidx]
  rw [List.getD_eq_get?, List.get?_eq_get hidx]
  rfl

theorem cc_error_of (s : List Char) (h : ∃ c ∈ s, char_rank c = none) :
    calculate_check_char s = .error .InvalidCharacter := by
  rw [calculate_check_char, mapRanks_error_of s h]

theorem cc_ok_mem (s : List Char) (ch : Char) (h : calculate_check_char s = .ok ch) :
    ch ∈ CHECK_ALPHABET := by
  rw [calculate_check_char] at h
  rcases hm : mapRanks s with e | ranks <;> rw [hm] at h
  · cases h
  · dsimp only at h
    rw [checkedRem_alpha] at h
    dsimp only at h
    rcases hg : CHECK_ALPHABET.get? (List.foldl (· + ·) 0 ranks % U64_SIZE % 23)
        with _ | ch' <;> rw [hg] at h
    · cases h
    · injection h with h'
      exact h' ▸ List.get?_mem hg

theorem cc_error_elim (s : List Char) :
    ∀ e, calculate_check_char s = .error e → e = .InvalidCharacter := by
  intro e h
  rw [calculate_check_char] at h
  rcases hm : mapRanks s with e' | ranks <;> rw [hm] at h
  · injection h with h'
    exact h' ▸ mapRanks_error_elim s e' hm
  · dsimp only at h
    rw [checkedRem_alpha] at h
    dsimp only at h
    have hidx : List.foldl (· + ·) 0 ranks % U64_SIZE % 23 < CHECK_ALPHABET.length := by
      rw [CHECK_ALPHABET_length]
      exact Nat.mod_lt _ (by norm_num)
    rw [List.get?_eq_get hidx] at h
    cases h

/-! ### Claim C1 -/

/-- C1 (amended): `calculate_check_char` fails with `InvalidCharacter`
exactly for characters whose code point lies outside the 256-entry lookup
table; characters with code point below 256 that are not in the check
alphabet are assigned the table's default rank and do not fail. -/
theorem claim1_check_lookup (s : List Char) :
    ((∃ c ∈ s, 256 ≤ c.toNat) → calculate_check_char s = .error .InvalidCharacter) ∧
    ((∀ c ∈ s, c.toNat < 256) → ∃ ch, calculate_check_char s = .ok ch) := by
  constructor
  · rintro ⟨c, hc, h256⟩
    exact cc_error_of s ⟨c, hc, (char_rank_eq_none_iff c).mpr h256⟩
  · intro h
    exact ⟨_, cc_formula s (fun c hc => char_rank_isSome c (h c hc))⟩

/-- C1 counterexample: the body `---` consists only of characters outside
the check alphabet, yet `calculate_check_char` accepts it (each `-` is
assigned rank 0 by the lookup table) instead of returning
`InvalidCharacter`. -/
theorem claim1_counterexample :
    calculate_check_char ['-', '-', '-'] = .ok 'a' ∧ '-' ∉ CHECK_ALPHABET := by decide

/-- C1 witness: a character with code point at least 256 is rejected, and a
sub-256 non-alphabet character is accepted. -/
theorem claim1_witness :
    calculate_check_char ['🦀'] = .error .InvalidCharacter ∧
    ∃ ch, calculate_check_char ['-'] = .ok ch :=
  ⟨(claim1_check_lookup ['🦀']).1 ⟨'🦀', by decide, by decide⟩,
   (claim1_check_lookup ['-']).2 (by decide)⟩

/-! ### Claim C5 -/

theorem rank_a : char_rank 'a' = some 0 := by decide

theorem cc_replicate_a (n : Nat) : calculate_check_char (List.replicate n 'a') = .ok 'a' := by
  have h : ∀ c ∈ List.replicate n 'a', (char_rank c).isSome := by
    intro c hc
    rw [List.eq_of_mem_replicate hc]
    decide
  rw [cc_formula _ h]
  have hsum : rank_sum (List.replicate n 'a') = 0 := by
    rw [rank_sum, List.map_replicate, rank_a]
    simp
  rw [hsum]
  rfl

/-- C5 (amended): `calculate_check_char` performs no length guard at all:
a body longer than the documented `max_length` is not rejected — the rank
sum is simply computed (with `u64` wraparound) and a check character is
returned.  `max_length` itself is `u64::MAX / 22 + 1 = 838488366986797801`. -/
theorem claim5_no_length_guard (n : Nat) (h : Id.max_length < n) :
    calculate_check_char (List.replicate n 'a') = .ok 'a' ∧
    Id.max_length = 838488366986797801 :=
  ⟨cc_replicate_a n, by decide⟩

/-- C5 counterexample: a body of `max_length + 1` characters is longer than
the documented maximum, yet `calculate_check_char` returns `Ok` instead of
rejecting with an `InvalidCheckBit`/overflow condition. -/
theorem claim5_counterexample :
    Id.max_length < (List.replicate (Id.max_length + 1) 'a').length ∧
    calculate_check_char (List.replicate (Id.max_length + 1) 'a') = .ok 'a' := by
  constructor
  · rw [List.length_replicate]
    exact Nat.lt_succ_self _
  · exact cc_replicate_a _

/-- C5 witness: instantiation of the amended claim at `max_length + 1`. -/
theorem claim5_witness :
    calculate_check_char (List.replicate (Id.max_length + 1) 'a') = .ok 'a' ∧
    Id.max_length = 838488366986797801 :=
  claim5_no_length_guard (Id.max_length + 1) (Nat.lt_succ_self _)

/-! ### Claim C7 -/

theorem rank_v : char_rank 'v' = some 22 := by decide

theorem rank_sum_replicate_v (n : Nat) :
    rank_sum (List.replicate n 'v') = 22 * n := by
  rw [rank_sum, List.map_replicate, rank_v]
  simp [List.sum_replicate, Nat.mul_comm]

/-- C7 (amended): for a body of check-alphabet characters the check
character is the alphabet entry at index `(rank sum mod 2 ^ 64) mod 23`
(`u64` wraparound); whenever the rank sum is below `2 ^ 64` — in
particular for every realistic length — this is the alphabet entry at the
plain rank sum modulo 23.  The result depends only on the multiset of
characters: anagram bodies always give identical results. -/
theorem claim7_checksum_formula (s t : List Char) :
    ((∀ c ∈ s, c ∈ CHECK_ALPHABET) →
      calculate_check_char s = .ok (CHECK_ALPHABET.getD (rank_sum s % U64_SIZE % 23) 'a') ∧
      (rank_sum s < U64_SIZE →
        calculate_check_char s = .ok (CHECK_ALPHABET.getD (rank_sum s % 23) 'a'))) ∧
    (s.Perm t → calculate_check_char s = calculate_check_char t) := by
  constructor
  · intro h
    have hs : ∀ c ∈ s, (char_rank c).isSome := fun c hc => rank_mem_isSome c (h c hc)
    refine ⟨cc_formula s hs, fun hlt => ?_⟩
    rw [cc_formula s hs, Nat.mod_eq_of_lt hlt]
  · intro hp
    by_cases hs : ∀ c ∈ s, (char_rank c).isSome
    · have ht : ∀ c ∈ t, (char_rank c).isSome := fun c hc => hs c (hp.mem_iff.mpr hc)
      rw [cc_formula s hs, cc_formula t ht]
      have hsum : rank_sum s = rank_sum t := List.Perm.sum_eq (hp.map _)
      rw [hsum]
    · push_neg at hs
      obtain ⟨c, hc, hne⟩ := hs
      have hnone : char_rank c = none := Option.not_isSome_iff_eq_none.mp hne
      rw [cc_error_of s ⟨c, hc, hnone⟩, cc_error_of t ⟨c, hp.subset hc, hnone⟩]

/-- C7 counterexample: on a body of `838488366986797801` copies of `v` the
`u64` rank sum wraps around (`22 * n = 2 ^ 64 + 6`), so the code returns
the alphabet entry at wrapped index 6 (`h`), not the entry at the plain
rank-sum index 12 (`o`) that the claim's formula demands. -/
theorem claim7_counterexample :
    calculate_check_char (List.replicate 838488366986797801 'v') = .ok 'h' ∧
    CHECK_ALPHABET.getD (rank_sum (List.replicate 838488366986797801 'v') % 23) 'a' = 'o' ∧
    ('h' : Char) ≠ 'o' := by
  refine ⟨?_, ?_, by decide⟩
  · have h := cc_formula (List.replicate 838488366986797801 'v') (by
      intro c hc
      rw [List.eq_of_mem_replicate hc]
      decide)
    rw [rank_sum_replicate_v] at h
    have harith : 22 * 838488366986797801 % U64_SIZE % 23 = 6 := by decide
    rw [harith] at h
    exact h
  · rw [rank_sum_replicate_v]
    decide

/-- C7 witness: instantiation of the amended claim on the anagram bodies
`ab` and `ba`. -/
theorem claim7_witness :
    calculate_check_char ['a', 'b'] =
      .ok (CHECK_ALPHABET.getD (rank_sum ['a', 'b'] % U64_SIZE % 23) 'a') ∧
    calculate_check_char ['a', 'b'] = calculate_check_char ['b', 'a'] :=
  ⟨((claim7_checksum_formula ['a', 'b'] ['b', 'a']).1 (by decide)).1,
   (claim7_checksum_formula ['a', 'b'] ['b', 'a']).2 (by decide)⟩

/-! ### The substring rewrites `rn` to `m` and `vv` to `w` -/

theorem mem_replacePair (a b r : Char) : ∀ l, ∀ c ∈ replacePair a b r l, c ∈ l ∨ c = r
  | [] => by simp [replacePair]
  | [x] => by simp [replacePair]
  | x :: y :: rest => by
    intro c hc
    simp only [replacePair] at hc
    by_cases hxy : x = a ∧ y = b
    · rw [if_pos hxy] at hc
      rcases List.mem_cons.mp hc with rfl | hc
      · exact Or.inr rfl
      · rcases mem_replacePair a b r rest c hc with h | h
        · exact Or.inl (by simp [h])
        · exact Or.inr h
    · rw [if_neg hxy] at hc
      rcases List.mem_cons.mp hc with rfl | hc
      · exact Or.inl (by simp)
      · rcases mem_replacePair a b r (y :: rest) c hc with h | h
        · exact Or.inl (List.mem_cons_of_mem _ h)
        · exact Or.inr h

theorem noPair_cons_elim {a b x : Char} {l : List Char} (h : noPair a b (x :: l) = true) :
    noPair a b l = true := by
  cases l with
  | nil => rfl
  | cons y rest =>
    simp only [noPair, Bool.and_eq_true] at h
    exact h.2

theorem noPair_cons_pair {a b x y : Char} {l : List Char}
    (h : noPair a b (x :: y :: l) = true) : ¬(x = a ∧ y = b) := by
  simp only [noPair, Bool.and_eq_true] at h
  rintro ⟨rfl, rfl⟩
  simp at h

theorem noPair_cons_intro {a b x : Char} {l : List Char}
    (hl : noPair a b l = true)
    (hhead : ∀ z t, l = z :: t → ¬(x = a ∧ z = b)) : noPair a b (x :: l) = true := by
  cases l with
  | nil => rfl
  | cons y rest =>
    simp only [noPair, Bool.and_eq_true]
    refine ⟨?_, hl⟩
    have hxy := hhead y rest rfl
    have hor : ¬x = a ∨ ¬y = b := by tauto
    simpa using hor

theorem head_replacePair (a b r x : Char) (l : List Char) :
    ∃ t, replacePair a b r (x :: l) = x :: t ∨ replacePair a b r (x :: l) = r :: t := by
  cases l with
  | nil => exact ⟨[], Or.inl rfl⟩
  | cons y rest =>
    by_cases hxy : x = a ∧ y = b
    · exact ⟨replacePair a b r rest, Or.inr (by simp only [replacePair, if_pos hxy])⟩
    · exact ⟨replacePair a b r (y :: rest), Or.inl (by simp only [replacePair, if_neg hxy])⟩

theorem noPair_replacePair (a b r : Char) (hra : r ≠ a) (hrb : r ≠ b) :
    ∀ l, noPair a b (replacePair a b r l) = true
  | [] => rfl
  | [_] => rfl
  | x :: y :: rest => by
    by_cases hxy : x = a ∧ y = b
    · simp only [replacePair, if_pos hxy]
      apply noPair_cons_intro (noPair_replacePair a b r hra hrb rest)
      rintro z t hz ⟨hra', -⟩
      exact hra hra'
    · simp only [replacePair, if_neg hxy]
      apply noPair_cons_intro (noPair_replacePair a b r hra hrb (y :: rest))
      intro z t hz hxz
      obtain ⟨t', ht | ht⟩ := head_replacePair a b r y rest
      · rw [ht] at hz
        obtain ⟨rfl, -⟩ := List.cons.inj hz
        exact hxy hxz
      · rw [ht] at hz
        obtain ⟨rfl, -⟩ := List.cons.inj hz
        exact hrb hxz.2

theorem replacePair_eq_self (a b r : Char) :
    ∀ l, noPair a b l = true → replacePair a b r l = l
  | [] => fun _ => rfl
  | [_] => fun _ => rfl
  | x :: y :: rest => fun h => by
    simp only [replacePair, if_neg (noPair_cons_pair h)]
    rw [replacePair_eq_self a b r (y :: rest) (noPair_cons_elim h)]

theorem noPair_replacePair_other (p q a b r : Char) (hrp : r ≠ p) (hrq : r ≠ q) :
    ∀ l, noPair p q l = true → noPair p q (replacePair a b r l) = true
  | [] => fun _ => rfl
  | [_] => fun _ => rfl
  | x :: y :: rest => fun h => by
    by_cases hxy : x = a ∧ y = b
    · simp only [replacePair, if_pos hxy]
      apply noPair_cons_intro (noPair_replacePair_other p q a b r hrp hrq rest
        (noPair_cons_elim (noPair_cons_elim h)))
      rintro z t hz ⟨hrp', -⟩
      exact hrp hrp'
    · simp only [replacePair, if_neg hxy]
      apply noPair_cons_intro (noPair_replacePair_other p q a b r hrp hrq (y :: rest)
        (noPair_cons_elim h))
      intro z t hz hxz
      obtain ⟨t', ht | ht⟩ := head_replacePair a b r y rest
      · rw [ht] at hz
        obtain ⟨rfl, -⟩ := List.cons.inj hz
        exact noPair_cons_pair h hxz
      · rw [ht] at hz
        obtain ⟨rfl, -⟩ := List.cons.inj hz
        exact hrq hxz.2

theorem replacePair_length_le (a b r : Char) :
    ∀ l, (replacePair a b r l).length ≤ l.length
  | [] => le_refl _
  | [_] => le_refl _
  | x :: y :: rest => by
    by_cases hxy : x = a ∧ y = b
    · simp only [replacePair, if_pos hxy, List.length_cons]
      have := replacePair_length_le a b r rest
      omega
    · simp only [replacePair, if_neg hxy, List.length_cons]
      have := replacePair_length_le a b r (y :: rest)
      simp only [List.length_cons] at this
      omega

theorem replacePair_length_eq (a b r : Char) :
    ∀ l, (replacePair a b r l).length = l.length → replacePair a b r l = l
  | [] => fun _ => rfl
  | [_] => fun _ => rfl
  | x :: y :: rest => fun h => by
    by_cases hxy : x = a ∧ y = b
    · exfalso
      simp only [replacePair, if_pos hxy, List.length_cons] at h
      have := replacePair_length_le a b r rest
      omega
    · simp only [replacePair, if_neg hxy, List.length_cons] at h ⊢
      rw [replacePair_length_eq a b r (y :: rest) (by simpa using h)]

/-! ### Character-level normalization -/

theorem lowerChar_toNat (c : Char) (h : 65 ≤ c.toNat ∧ c.toNat ≤ 90) :
    (lowerChar c).toNat = c.toNat + 32 := by
  rw [lowerChar, if_pos h]
  have hvalid : Nat.isValidChar (c.toNat + 32) := Or.inl (by omega)
  unfold Char.ofNat
  rw [dif_pos hvalid]
  unfold Char.ofNatAux
  simp [Char.toNat]
  rfl

theorem lowerChar_fix (c : Char) (h : ¬(65 ≤ c.toNat ∧ c.toNat ≤ 90)) : lowerChar c = c := by
  rw [lowerChar, if_neg h]

theorem lowerChar_idem (c : Char) : lowerChar (lowerChar c) = lowerChar c := by
  by_cases h : 65 ≤ c.toNat ∧ c.toNat ≤ 90
  · have h1 := lowerChar_toNat c h
    exact lowerChar_fix _ (by omega)
  · rw [lowerChar_fix c h]
    exact lowerChar_fix c h

theorem normalize_char_fix_of (y : Char) (hy : lowerChar y = y) :
    lowerChar (normalize_char y) = normalize_char y ∧
    normalize_char (normalize_char y) = normalize_char y := by
  rw [normalize_char]
  split_ifs with h1 h2 h3 h4 h5
  · exact ⟨by decide, by decide⟩
  · exact ⟨by decide, by decide⟩
  · exact ⟨by decide, by decide⟩
  · exact ⟨by decide, by decide⟩
  · exact ⟨by decide, by decide⟩
  · exact ⟨hy, by rw [normalize_char, if_neg h1, if_neg h2, if_neg h3, if_neg h4, if_neg h5]⟩

theorem normStep_idem (c : Char) : normStep (normStep c) = normStep c := by
  rw [normStep, normStep]
  obtain ⟨h1, h2⟩ := normalize_char_fix_of (lowerChar c) (lowerChar_idem c)
  rw [h1]
  exact h2

theorem normalize_string_eq (s : List Char) :
    normalize_string s = replacePair 'v' 'v' 'w' (replacePair 'r' 'n' 'm' (s.map normStep)) := by
  rw [normalize_string, List.map_map]
  rfl

theorem map_eq_self_of {f : Char → Char} : ∀ l : List Char, (∀ x ∈ l, f x = x) → l.map f = l
  | [] => fun _ => rfl
  | x :: rest => fun h => by
    rw [List.map_cons, h x (by simp), map_eq_self_of rest (fun y hy => h y (by simp [hy]))]

theorem map_eq_self_mem {f : Char → Char} : ∀ l : List Char, l.map f = l → ∀ x ∈ l, f x = x
  | [] => by simp
  | x :: rest => fun h => by
    rw [List.map_cons] at h
    injection h with h1 h2
    intro y hy
    rcases List.mem_cons.mp hy with rfl | hy
    · exact h1
    · exact map_eq_self_mem rest h2 y hy

theorem normalize_chars_fixed (s : List Char) :
    ∀ c ∈ normalize_string s, normStep c = c := by
  intro c hc
  rw [normalize_string_eq] at hc
  rcases mem_replacePair _ _ _ _ c hc with hc1 | rfl
  · rcases mem_replacePair _ _ _ _ c hc1 with hc2 | rfl
    · obtain ⟨x, _, rfl⟩ := List.mem_map.mp hc2
      exact normStep_idem x
    · decide
  · decide

/-- Idempotence of the ASCII-restricted `normalize_string` model (the
idempotence claim itself is proved below over the full Unicode
lowercasing model). -/
theorem normalize_string_ascii_idem (s : List Char) :
    normalize_string (normalize_string s) = normalize_string s := by
  have hmap : (normalize_string s).map normStep = normalize_string s :=
    map_eq_self_of _ (normalize_chars_fixed s)
  have hrn : noPair 'r' 'n' (normalize_string s) = true := by
    rw [normalize_string_eq]
    exact noPair_replacePair_other 'r' 'n' 'v' 'v' 'w' (by decide) (by decide) _
      (noPair_replacePair 'r' 'n' 'm' (by decide) (by decide) _)
  have hvv : noPair 'v' 'v' (normalize_string s) = true := by
    rw [normalize_string_eq]
    exact noPair_replacePair 'v' 'v' 'w' (by decide) (by decide) _
  rw [normalize_string_eq (normalize_string s), hmap,
    replacePair_eq_self _ _ _ _ hrn, replacePair_eq_self _ _ _ _ hvv]

/-! ### Byte lengths and the checked split -/

theorem utf8Len_append (a b : List Char) : utf8Len (a ++ b) = utf8Len a + utf8Len b := by
  simp [utf8Len, List.sum_append]

theorem utf8Len_eq_zero {l : List Char} (h : utf8Len l = 0) : l = [] := by
  cases l with
  | nil => rfl
  | cons c rest =>
    exfalso
    have := Char.utf8Size_pos c
    simp [utf8Len] at h
    omega

theorem utf8Len_singleton_size {l : List Char} (h : utf8Len l = 1) :
    ∃ c, l = [c] ∧ c.utf8Size = 1 := by
  cases l with
  | nil => simp [utf8Len] at h
  | cons c rest =>
    have hpos := Char.utf8Size_pos c
    simp only [utf8Len, List.map_cons, List.sum_cons] at h
    have h2 : (rest.map Char.utf8Size).sum = 0 := by omega
    have h1 : c.utf8Size = 1 := by omega
    exact ⟨c, by rw [utf8Len_eq_zero h2], h1⟩

theorem utf8Len_ascii : ∀ l : List Char, (∀ c ∈ l, c.utf8Size = 1) → utf8Len l = l.length
  | [] => fun _ => rfl
  | c :: rest => fun h => by
    simp only [utf8Len, List.map_cons, List.sum_cons, List.length_cons]
    rw [h c (by simp)]
    have ih := utf8Len_ascii rest (fun x hx => h x (by simp [hx]))
    rw [utf8Len] at ih
    omega

theorem splitAux_some : ∀ (l : List Char) (n : Nat) (a b : List Char),
    splitAux l n = some (a, b) → l = a ++ b ∧ utf8Len a = n
  | l, 0, a, b => by
    intro h
    simp only [splitAux, Option.some.injEq, Prod.mk.injEq] at h
    obtain ⟨ha, hb⟩ := h
    subst ha
    subst hb
    exact ⟨rfl, rfl⟩
  | [], _ + 1, a, b => by
    intro h
    simp [splitAux] at h
  | c :: rest, n + 1, a, b => by
    intro h
    simp only [splitAux] at h
    by_cases hsz : c.utf8Size ≤ n + 1
    · rw [if_pos hsz] at h
      rcases hsp : splitAux rest (n + 1 - c.utf8Size) with _ | ⟨a', b'⟩ <;> rw [hsp] at h
      · cases h
      · rw [Option.some.injEq, Prod.mk.injEq] at h
        obtain ⟨ha, hb⟩ := h
        subst ha
        subst hb
        obtain ⟨hl, hlen⟩ := splitAux_some rest (n + 1 - c.utf8Size) a' b' hsp
        constructor
        · rw [hl]
          rfl
        · simp only [utf8Len, List.map_cons, List.sum_cons]
          rw [utf8Len] at hlen
          omega
    · rw [if_neg hsz] at h
      cases h

theorem splitAux_ascii : ∀ (l : List Char) (n : Nat), (∀ c ∈ l, c.utf8Size = 1) →
    n ≤ l.length → splitAux l n = some (l.take n, l.drop n)
  | _, 0, _, _ => by simp [splitAux]
  | [], n + 1, _, hn => by simp at hn
  | c :: rest, n + 1, h, hn => by
    simp only [splitAux]
    rw [if_pos (by rw [h c (by simp)]; omega)]
    rw [h c (by simp)]
    have hn' : n ≤ rest.length := by
      simp only [List.length_cons] at hn
      omega
    have ih := splitAux_ascii rest n (fun x hx => h x (by simp [hx])) hn'
    simp only [Nat.add_sub_cancel, ih, List.take_succ_cons, List.drop_succ_cons]

theorem checked_sub_of_le {a b : Nat} (h : b ≤ a) : checked_sub a b = some (a - b) := by
  rw [checked_sub, if_pos h]

/-! ### The validation loop -/

theorem validate_body_ok : ∀ l : List Char, validate_body l = .ok () ↔ ∀ c ∈ l, c ∈ CHECK_ALPHABET
  | [] => by simp [validate_body]
  | c :: rest => by
    simp only [validate_body, validate_char]
    by_cases hc : c ∈ CHECK_ALPHABET
    · rw [if_pos hc]
      dsimp only
      rw [validate_body_ok rest]
      simp [hc]
    · rw [if_neg hc]
      simp [hc]

theorem validate_body_error_elim : ∀ (l : List Char) e,
    validate_body l = .error e → e = .InvalidCharacter
  | [] => by
    intro e h
    cases h
  | c :: rest => by
    intro e h
    simp only [validate_body, validate_char] at h
    by_cases hc : c ∈ CHECK_ALPHABET
    · rw [if_pos hc] at h
      exact validate_body_error_elim rest e h
    · rw [if_neg hc] at h
      injection h with h'
      exact h'.symm

/-! ### Structure of `from_str` -/

theorem from_str_ok_elim (s : List Char) (id : Id) (h : from_str s = some (.ok id)) :
    id.val = normalize_string s ∧ 3 < utf8Len (normalize_string s) ∧
    ∃ body ch, normalize_string s = body ++ [ch] ∧
      utf8Len body = utf8Len (normalize_string s) - 1 ∧
      calculate_check_char body = .ok ch ∧ (∀ c ∈ body, c ∈ CHECK_ALPHABET) := by
  unfold from_str at h
  by_cases h3 : utf8Len (normalize_string s) ≤ 3
  · rw [if_pos h3] at h
    simp at h
  · rw [if_neg h3, checked_sub_of_le (by omega : 1 ≤ utf8Len (normalize_string s))] at h
    dsimp only at h
    rcases hsp : splitAux (normalize_string s) (utf8Len (normalize_string s) - 1)
        with _ | ⟨body, cs⟩ <;> rw [hsp] at h
    · simp at h
    · dsimp only at h
      rcases hcc : calculate_check_char body with e | expected <;> rw [hcc] at h
      · simp at h
      · dsimp only at h
        by_cases hcmp : cs ≠ [expected]
        · rw [if_pos hcmp] at h
          simp at h
        · rw [if_neg hcmp] at h
          push_neg at hcmp
          rcases hv : validate_body body with e | u <;> rw [hv] at h
          · simp at h
          · simp only [Option.some.injEq] at h
            injection h with h'
            obtain ⟨hl, hlen⟩ := splitAux_some _ _ _ _ hsp
            subst hcmp
            refine ⟨by rw [← h'], by omega, body, expected, hl, hlen, hcc, ?_⟩
            exact (validate_body_ok body).mp hv

/-! ### Claim C9 -/

theorem normalize_ne_of_changed (s : List Char) (h : ∃ c ∈ s, normStep c ≠ c) :
    normalize_string s ≠ s := by
  intro heq
  obtain ⟨c, hc, hne⟩ := h
  have hL : (replacePair 'v' 'v' 'w' (replacePair 'r' 'n' 'm' (s.map normStep))).length
      = s.length := by
    rw [← normalize_string_eq, heq]
  have hml : (s.map normStep).length = s.length := List.length_map s normStep
  have h1 := replacePair_length_le 'r' 'n' 'm' (s.map normStep)
  have h2 := replacePair_length_le 'v' 'v' 'w' (replacePair 'r' 'n' 'm' (s.map normStep))
  have e2 := replacePair_length_eq 'v' 'v' 'w' (replacePair 'r' 'n' 'm' (s.map normStep))
    (by omega)
  have e1 := replacePair_length_eq 'r' 'n' 'm' (s.map normStep) (by omega)
  rw [normalize_string_eq, e2, e1] at heq
  exact hne (map_eq_self_mem s heq c hc)

/-- C9 (confirmed): a successful parse stores the normalized input as the
identifier's canonical form, and whenever the raw input contained any
character that normalization rewrites (an uppercase letter, a folded digit
or a confusable), the stored value differs from the raw input. -/
theorem claim9_stores_normalized (s : List Char) (id : Id)
    (h : from_str s = some (.ok id)) :
    id.val = normalize_string s ∧
    ((∃ c ∈ s, normalize_char (lowerChar c) ≠ c) → id.val ≠ s) := by
  have hval : id.val = normalize_string s := (from_str_ok_elim s id h).1
  refine ⟨hval, fun hex => ?_⟩
  rw [hval]
  exact normalize_ne_of_changed s hex

/-- C9 witness: parsing `AAAA` succeeds and stores `aaaa`, which differs
from the raw input. -/
theorem claim9_witness :
    (Id.mk ['a', 'a', 'a', 'a']).val = normalize_string ['A', 'A', 'A', 'A'] ∧
    (Id.mk ['a', 'a', 'a', 'a']).val ≠ ['A', 'A', 'A', 'A'] :=
  ⟨(claim9_stores_normalized ['A', 'A', 'A', 'A'] ⟨['a', 'a', 'a', 'a']⟩ (by decide)).1,
   (claim9_stores_normalized ['A', 'A', 'A', 'A'] ⟨['a', 'a', 'a', 'a']⟩ (by decide)).2
     (by decide)⟩

/-! ### Claim C3 -/

/-- C3 (amended): `TooShort` is returned exactly when the normalized
input's UTF-8 byte length (not its character count) is at most 3. -/
theorem claim3_tooshort_boundary (s : List Char) :
    from_str s = some (.error .TooShort) ↔ utf8Len (normalize_string s) ≤ 3 := by
  constructor
  · intro h
    by_contra h3
    unfold from_str at h
    rw [if_neg h3, checked_sub_of_le (by omega : 1 ≤ utf8Len (normalize_string s))] at h
    dsimp only at h
    rcases hsp : splitAux (normalize_string s) (utf8Len (normalize_string s) - 1)
        with _ | ⟨body, cs⟩ <;> rw [hsp] at h
    · simp at h
    · dsimp only at h
      rcases hcc : calculate_check_char body with e | exp <;> rw [hcc] at h
      · have he := cc_error_elim body e hcc
        subst he
        simp at h
      · dsimp only at h
        by_cases hcmp : cs ≠ [exp]
        · rw [if_pos hcmp] at h
          simp at h
        · rw [if_neg hcmp] at h
          rcases hv : validate_body body with e | u <;> rw [hv] at h
          · have he := validate_body_error_elim body e hv
            subst he
            simp at h
          · simp at h
  · intro h
    unfold from_str
    rw [if_pos h]

/-- C3 counterexample: the input `🦀` normalizes to a single character
(character count 1 ≤ 3), yet parsing returns `InvalidCharacter`, not
`TooShort` — the boundary is on UTF-8 bytes (4 here), not characters. -/
theorem claim3_counterexample :
    from_str ['🦀'] = some (.error .InvalidCharacter) ∧
    (normalize_string ['🦀']).length ≤ 3 ∧
    IdError.InvalidCharacter ≠ IdError.TooShort := by decide

/-! ### Claim C6 -/

/-- C6 (confirmed): parsing is total — for every input it returns a value
(`Ok` or one of the defined errors) and never reaches the panic marker. -/
theorem claim6_parse_total (s : List Char) : ∃ r, from_str s = some r := by
  unfold from_str
  by_cases h3 : utf8Len (normalize_string s) ≤ 3
  · rw [if_pos h3]
    exact ⟨_, rfl⟩
  · rw [if_neg h3, checked_sub_of_le (by omega : 1 ≤ utf8Len (normalize_string s))]
    dsimp only
    rcases hsp : splitAux (normalize_string s) (utf8Len (normalize_string s) - 1)
        with _ | ⟨body, cs⟩
    · exact ⟨_, rfl⟩
    · dsimp only
      rcases hcc : calculate_check_char body with e | exp
      · exact ⟨_, rfl⟩
      · dsimp only
        by_cases hcmp : cs ≠ [exp]
        · rw [if_pos hcmp]
          exact ⟨_, rfl⟩
        · rw [if_neg hcmp]
          rcases hv : validate_body body with e | u
          · exact ⟨_, rfl⟩
          · exact ⟨_, rfl⟩

/-! ### Claim C10 -/

/-- C10 (confirmed): when the normalized input has byte length at least 4
but ends in a multi-byte character, the byte split at `len - 1` is not on
a character boundary and parsing fails with `InvalidCharacter` from the
split step. -/
theorem claim10_multibyte_tail (s : List Char) (ch : Char)
    (h4 : 4 ≤ utf8Len (normalize_string s))
    (hlast : (normalize_string s).getLast? = some ch)
    (hsz : 2 ≤ ch.utf8Size) :
    from_str s = some (.error .InvalidCharacter) := by
  unfold from_str
  rw [if_neg (by omega), checked_sub_of_le (by omega : 1 ≤ utf8Len (normalize_string s))]
  dsimp only
  rcases hsp : splitAux (normalize_string s) (utf8Len (normalize_string s) - 1)
      with _ | ⟨body, cs⟩
  · rfl
  · exfalso
    obtain ⟨hl, hlen⟩ := splitAux_some _ _ _ _ hsp
    have hb : utf8Len cs = 1 := by
      have happ := utf8Len_append body cs
      rw [← hl] at happ
      omega
    obtain ⟨c, rfl, hc1⟩ := utf8Len_singleton_size hb
    rw [hl, List.getLast?_concat] at hlast
    injection hlast with h'
    rw [h'] at hc1
    omega

/-- C10 witness: `aaa🦀` (7 normalized bytes, 4-byte final character)
fails with `InvalidCharacter`. -/
theorem claim10_witness :
    from_str ['a', 'a', 'a', '🦀'] = some (.error .InvalidCharacter) :=
  claim10_multibyte_tail ['a', 'a', 'a', '🦀'] '🦀' (by decide) (by decide) (by decide)

/-! ### The generation loop -/

theorem noPair_append_single (a b c : Char) :
    ∀ l, noPair a b l = true → (∀ x, l.getLast? = some x → ¬(x = a ∧ c = b)) →
      noPair a b (l ++ [c]) = true
  | [] => fun _ _ => rfl
  | [x] => fun _ h => by
    have hx := h x rfl
    simp only [List.cons_append, List.nil_append]
    refine noPair_cons_intro rfl (fun z t hz => ?_)
    injection hz with hz1 hz2
    subst hz1
    exact hx
  | x :: y :: rest => fun hnp h => by
    simp only [List.cons_append]
    apply noPair_cons_intro
    · apply noPair_append_single a b c (y :: rest) (noPair_cons_elim hnp)
      intro x' hx'
      exact h x' (by rw [List.getLast?_cons_cons]; exact hx')
    · intro z t hz
      injection hz with hz1 hz2
      subst hz1
      exact noPair_cons_pair hnp

theorem gen_getD_mem (i : Nat) :
    GEN_ALPHABET.getD (i % GEN_ALPHABET.length) 'a' ∈ GEN_ALPHABET := by
  have hlt : i % GEN_ALPHABET.length < GEN_ALPHABET.length := Nat.mod_lt _ (by decide)
  rw [List.getD_eq_get?, List.get?_eq_get hlt]
  exact List.get_mem _ _ _

theorem new_with_rng_aux_inv (len : Nat) (rng : Nat → Nat) :
    ∀ (fuel k : Nat) (body out : List Char),
      new_with_rng_aux len rng fuel k body = some out → GenInv len body →
      GenInv len out ∧ out.length = len - 1
  | 0, k, body, out => by
    intro h hinv
    simp only [new_with_rng_aux] at h
    by_cases hlt : body.length < len - 1
    · rw [if_pos hlt] at h
      cases h
    · rw [if_neg hlt] at h
      injection h with h'
      subst h'
      exact ⟨hinv, by have := hinv.2.2.2.1; omega⟩
  | fuel + 1, k, body, out => by
    intro h hinv
    simp only [new_with_rng_aux] at h
    by_cases hlt : body.length < len - 1
    · rw [if_pos hlt] at h
      generalize hc : GEN_ALPHABET.getD (rng k % GEN_ALPHABET.length) 'a' = c at h
      by_cases h1 : (body.getLast? = some 'r' ∧ c = 'n') ∨ (body.getLast? = some 'v' ∧ c = 'v')
      · rw [if_pos h1] at h
        exact new_with_rng_aux_inv len rng fuel (k + 1) body out h hinv
      · rw [if_neg h1] at h
        by_cases h2 : (c = 'r' ∨ c = 'v') ∧ body.length = len - 2
        · rw [if_pos h2] at h
          exact new_with_rng_aux_inv len rng fuel (k + 1) body out h hinv
        · rw [if_neg h2] at h
          apply new_with_rng_aux_inv len rng fuel (k + 1) (body ++ [c]) out h
          obtain ⟨hmem, hrn, hvv, hlen, hlast⟩ := hinv
          push_neg at h1
          push_neg at h2
          refine ⟨?_, ?_, ?_, ?_, ?_⟩
          · intro x hx
            rcases List.mem_append.mp hx with hx | hx
            · exact hmem x hx
            · rw [List.mem_singleton.mp hx, ← hc]
              exact gen_getD_mem _
          · refine noPair_append_single _ _ _ _ hrn (fun x hx => ?_)
            rintro ⟨rfl, rfl⟩
            exact h1.1 hx rfl
          · refine noPair_append_single _ _ _ _ hvv (fun x hx => ?_)
            rintro ⟨rfl, rfl⟩
            exact h1.2 hx rfl
          · simp only [List.length_append, List.length_singleton]
            omega
          · intro hfull x hx
            rw [List.getLast?_concat] at hx
            injection hx with hx'
            subst hx'
            have hbl : body.length = len - 2 := by
              simp only [List.length_append, List.length_singleton] at hfull
              omega
            constructor
            · intro hceq
              exact h2 (Or.inl hceq) hbl
            · intro hceq
              exact h2 (Or.inr hceq) hbl
    · rw [if_neg hlt] at h
      injection h with h'
      subst h'
      exact ⟨hinv, by have := hinv.2.2.2.1; omega⟩

theorem new_with_rng_elim (len : Nat) (rng : Nat → Nat) (fuel : Nat) (id : Id)
    (h : new_with_rng len rng fuel = some id) :
    ∃ body ch, id.val = body ++ [ch] ∧ body.length = len - 1 ∧
      (∀ c ∈ body, c ∈ GEN_ALPHABET) ∧
      noPair 'r' 'n' body = true ∧ noPair 'v' 'v' body = true ∧
      (∀ x, body.getLast? = some x → x ≠ 'r' ∧ x ≠ 'v') ∧
      calculate_check_char body = .ok ch ∧ ch ∈ CHECK_ALPHABET := by
  unfold new_with_rng at h
  rcases haux : new_with_rng_aux len rng fuel 0 [] with _ | body <;> rw [haux] at h
  · cases h
  · dsimp only at h
    rcases hcc : calculate_check_char body with e | ch <;> rw [hcc] at h
    · cases h
    · injection h with h'
      have hinit : GenInv len [] :=
        ⟨by simp, rfl, rfl, Nat.zero_le _, by intro _ x hx; cases hx⟩
      obtain ⟨⟨hmem, hrn, hvv, hlen, hlast⟩, hfull⟩ :=
        new_with_rng_aux_inv len rng fuel 0 [] body haux hinit
      exact ⟨body, ch, by rw [← h'], hfull, hmem, hrn, hvv, hlast hfull, hcc,
        cc_ok_mem body ch hcc⟩

/-! ### Normalization fixes generated strings -/

theorem check_chars_fixed : ∀ c ∈ CHECK_ALPHABET, normStep c = c := by decide

theorem gen_sub_check : ∀ c ∈ GEN_ALPHABET, c ∈ CHECK_ALPHABET := by decide

theorem check_size_one : ∀ c ∈ CHECK_ALPHABET, c.utf8Size = 1 := by decide

theorem normalize_fixed_of (l : List Char) (hmem : ∀ c ∈ l, c ∈ CHECK_ALPHABET)
    (hrn : noPair 'r' 'n' l = true) (hvv : noPair 'v' 'v' l = true) :
    normalize_string l = l := by
  rw [normalize_string_eq]
  rw [map_eq_self_of l (fun x hx => check_chars_fixed x (hmem x hx))]
  rw [replacePair_eq_self _ _ _ _ hrn, replacePair_eq_self _ _ _ _ hvv]

/-! ### Claim C2 -/

/-- C2 (amended): for every target length of at least 4 and every source of
randomness, whenever the generation loop completes, the generated
identifier's string parses back to an identifier equal to the generated
one, and its length equals the requested length.  (For lengths 1–3 the
generated string is shorter than the parser's minimum of 4 and is rejected
as `TooShort`.) -/
theorem claim2_roundtrip (len : Nat) (rng : Nat → Nat) (fuel : Nat) (id : Id)
    (hlen : 4 ≤ len) (h : new_with_rng len rng fuel = some id) :
    from_str id.val = some (.ok id) ∧ id.val.length = len := by
  obtain ⟨v⟩ := id
  obtain ⟨body, ch, hval, hblen, hmem, hrn, hvv, hlast, hcc, hchmem⟩ :=
    new_with_rng_elim len rng fuel ⟨v⟩ h
  have hv : v = body ++ [ch] := hval
  subst hv
  have hmemC : ∀ c ∈ body, c ∈ CHECK_ALPHABET := fun c hc => gen_sub_check c (hmem c hc)
  have hmemAll : ∀ c ∈ body ++ [ch], c ∈ CHECK_ALPHABET := by
    intro c hc
    rcases List.mem_append.mp hc with hc | hc
    · exact hmemC c hc
    · rw [List.mem_singleton.mp hc]
      exact hchmem
  have hrn2 : noPair 'r' 'n' (body ++ [ch]) = true := by
    refine noPair_append_single _ _ _ _ hrn (fun x hx => ?_)
    rintro ⟨rfl, -⟩
    exact (hlast _ hx).1 rfl
  have hvv2 : noPair 'v' 'v' (body ++ [ch]) = true := by
    refine noPair_append_single _ _ _ _ hvv (fun x hx => ?_)
    rintro ⟨rfl, -⟩
    exact (hlast _ hx).2 rfl
  have hnorm : normalize_string (body ++ [ch]) = body ++ [ch] :=
    normalize_fixed_of _ hmemAll hrn2 hvv2
  have hsize1 : ∀ c ∈ body ++ [ch], c.utf8Size = 1 := fun c hc => check_size_one c (hmemAll c hc)
  have hulen : utf8Len (body ++ [ch]) = len := by
    rw [utf8Len_ascii _ hsize1]
    simp only [List.length_append, List.length_singleton]
    omega
  constructor
  · unfold from_str
    rw [hnorm, hulen, if_neg (by omega), checked_sub_of_le (by omega : 1 ≤ len)]
    dsimp only
    have hsplit : splitAux (body ++ [ch]) (len - 1) = some (body, [ch]) := by
      rw [splitAux_ascii (body ++ [ch]) (len - 1) hsize1
        (by simp only [List.length_append, List.length_singleton]; omega)]
      rw [show len - 1 = body.length from by omega, List.take_left, List.drop_left]
    rw [hsplit]
    dsimp only
    rw [hcc]
    dsimp only
    rw [if_neg (by simp)]
    rw [(validate_body_ok body).mpr hmemC]
  · simp only [List.length_append, List.length_singleton]
    omega

/-- C2 counterexample: for requested length 1 the generated identifier is
the single check character `a`, and parsing it fails with `TooShort`
rather than round-tripping. -/
theorem claim2_counterexample :
    new_with_rng 1 (fun _ => 0) 1 = some ⟨['a']⟩ ∧
    from_str ['a'] = some (.error .TooShort) := by decide

/-- C2 witness: the length-4 identifier `aaaa` generated from the constant
zero stream parses back to itself. -/
theorem claim2_witness :
    from_str (Id.mk ['a', 'a', 'a', 'a']).val = some (.ok ⟨['a', 'a', 'a', 'a']⟩) ∧
    (Id.mk ['a', 'a', 'a', 'a']).val.length = 4 :=
  claim2_roundtrip 4 (fun _ => 0) 3 ⟨['a', 'a', 'a', 'a']⟩ (by decide) (by decide)

/-! ### Claim C4 -/

/-- C4 (amended): every successfully parsed identifier satisfies the full
type invariant (length at least 4, body of at least 3 check-alphabet
characters, trailing character equal to the body's check character), and
every generated identifier does so whenever the requested length is at
least 4.  (Generation with a requested length below 4 produces a shorter
identifier, violating the length part of the invariant.) -/
theorem claim4_invariant (s : List Char) (id : Id) (len : Nat) (rng : Nat → Nat)
    (fuel : Nat) (gid : Id) :
    (from_str s = some (.ok id) → IdInvariant id) ∧
    (4 ≤ len → new_with_rng len rng fuel = some gid → IdInvariant gid) := by
  constructor
  · intro h
    obtain ⟨hval, h3, body, ch, hnorm, hblen, hcc, hmem⟩ := from_str_ok_elim s id h
    have hv : id.val = body ++ [ch] := by rw [hval, hnorm]
    have hsz : ∀ c ∈ body, c.utf8Size = 1 := fun c hc => check_size_one c (hmem c hc)
    have hbl : body.length = utf8Len (normalize_string s) - 1 := by
      rw [← utf8Len_ascii body hsz]
      exact hblen
    refine ⟨?_, ?_, ?_, ch, ?_, ?_⟩
    · rw [hv]
      simp only [List.length_append, List.length_singleton]
      omega
    · rw [hv, List.dropLast_concat]
      omega
    · rw [hv, List.dropLast_concat]
      exact hmem
    · rw [hv, List.getLast?_concat]
    · rw [hv, List.dropLast_concat]
      exact hcc
  · intro hlen h
    obtain ⟨body, ch, hval, hblen, hmem, hrn, hvv, hlast, hcc, hchmem⟩ :=
      new_with_rng_elim len rng fuel gid h
    refine ⟨?_, ?_, ?_, ch, ?_, ?_⟩
    · rw [hval]
      simp only [List.length_append, List.length_singleton]
      omega
    · rw [hval, List.dropLast_concat]
      omega
    · rw [hval, List.dropLast_concat]
      intro c hc
      exact gen_sub_check c (hmem c hc)
    · rw [hval, List.getLast?_concat]
    · rw [hval, List.dropLast_concat]
      exact hcc

/-- C4 counterexample: generation with requested length 3 yields the
identifier `aaa`, whose total length 3 violates the invariant's minimum of
4. -/
theorem claim4_counterexample :
    new_with_rng 3 (fun _ => 0) 2 = some ⟨['a', 'a', 'a']⟩ ∧
    ¬IdInvariant ⟨['a', 'a', 'a']⟩ := by
  constructor
  · decide
  · rintro ⟨h4, -⟩
    exact absurd h4 (by decide)

/-- C4 witness: the parsed identifier `aaaa` and the generated length-5
identifier `bbbbe` both satisfy the invariant. -/
theorem claim4_witness :
    IdInvariant ⟨['a', 'a', 'a', 'a']⟩ ∧ IdInvariant ⟨['b', 'b', 'b', 'b', 'e']⟩ :=
  ⟨(claim4_invariant ['a', 'a', 'a', 'a'] ⟨['a', 'a', 'a', 'a']⟩ 5 (fun _ => 1) 10
      ⟨['b', 'b', 'b', 'b', 'e']⟩).1 (by decide),
   (claim4_invariant ['a', 'a', 'a', 'a'] ⟨['a', 'a', 'a', 'a']⟩ 5 (fun _ => 1) 10
      ⟨['b', 'b', 'b', 'b', 'e']⟩).2 (by decide) (by decide)⟩

/-! ### The separator checks for the Unicode lowercase table

`tree_mem _ KEYTREE` answers `true` on every key of the table and
`false` on every character a table expansion can produce (and `false` on
the lowercase sigmas); being a single deterministic function, this makes
the outputs disjoint from the keys, which is the heart of idempotence:
lowercasing its own output changes nothing. -/

theorem keytree_complete_0 :
    (LT_0.all (fun p => tree_mem p.1.toNat KEYTREE)) = true := by decide

theorem keytree_complete_1 :
    (LT_1.all (fun p => tree_mem p.1.toNat KEYTREE)) = true := by decide

theorem keytree_complete_2 :
    (LT_2.all (fun p => tree_mem p.1.toNat KEYTREE)) = true := by decide

theorem keytree_complete_3 :
    (LT_3.all (fun p => tree_mem p.1.toNat KEYTREE)) = true := by decide

theorem keytree_complete_4 :
    (LT_4.all (fun p => tree_mem p.1.toNat KEYTREE)) = true := by decide

theorem outputs_sep_0 :
    (LT_0.all (fun p => p.2.all (fun y =>
      !(tree_mem y.toNat KEYTREE) && y.toNat != 0x3a3))) = true := by decide

theorem outputs_sep_1 :
    (LT_1.all (fun p => p.2.all (fun y =>
      !(tree_mem y.toNat KEYTREE) && y.toNat != 0x3a3))) = true := by decide

theorem outputs_sep_2 :
    (LT_2.all (fun p => p.2.all (fun y =>
      !(tree_mem y.toNat KEYTREE) && y.toNat != 0x3a3))) = true := by decide

theorem outputs_sep_3 :
    (LT_3.all (fun p => p.2.all (fun y =>
      !(tree_mem y.toNat KEYTREE) && y.toNat != 0x3a3))) = true := by decide

theorem outputs_sep_4 :
    (LT_4.all (fun p => p.2.all (fun y =>
      !(tree_mem y.toNat KEYTREE) && y.toNat != 0x3a3))) = true := by decide

theorem tree_sep {n m : Nat} (h1 : tree_mem n KEYTREE = false)
    (h2 : tree_mem m KEYTREE = true) : n ≠ m := by
  intro he
  rw [he, h2] at h1
  cases h1

theorem tbl_lookup_append (a b : List (Char × List Char)) (y : Char)
    (ha : tbl_lookup a y = none) : tbl_lookup (a ++ b) y = tbl_lookup b y := by
  induction a with
  | nil => rfl
  | cons p rest ih =>
    obtain ⟨k, v⟩ := p
    simp only [List.cons_append, tbl_lookup] at ha ⊢
    by_cases he : y = k
    · rw [if_pos he] at ha
      cases ha
    · rw [if_neg he] at ha ⊢
      exact ih ha

theorem chunk_lookup_none (t : List (Char × List Char)) (y : Char)
    (hall : (t.all (fun p => tree_mem p.1.toNat KEYTREE)) = true)
    (hy : tree_mem y.toNat KEYTREE = false) : tbl_lookup t y = none := by
  induction t with
  | nil => rfl
  | cons p rest ih =>
    obtain ⟨k, v⟩ := p
    simp only [List.all_cons, Bool.and_eq_true] at hall
    have hne : y ≠ k := fun he => tree_sep hy hall.1 (congrArg Char.toNat he)
    simp only [tbl_lookup, if_neg hne]
    exact ih hall.2

theorem table_lookup_none (y : Char) (hy : tree_mem y.toNat KEYTREE = false) :
    tbl_lookup LOWERCASE_TABLE y = none := by
  rw [LOWERCASE_TABLE]
  rw [tbl_lookup_append _ _ _ (chunk_lookup_none LT_0 y keytree_complete_0 hy)]
  rw [tbl_lookup_append _ _ _ (chunk_lookup_none LT_1 y keytree_complete_1 hy)]
  rw [tbl_lookup_append _ _ _ (chunk_lookup_none LT_2 y keytree_complete_2 hy)]
  rw [tbl_lookup_append _ _ _ (chunk_lookup_none LT_3 y keytree_complete_3 hy)]
  exact chunk_lookup_none LT_4 y keytree_complete_4 hy

theorem ne_sigma_of_toNat {y : Char} (h : (y.toNat != 0x3a3) = true) : y ≠ 'Σ' := by
  intro he
  subst he
  exact absurd h (by decide)

theorem stable_of_tree (y : Char)
    (h : (!(tree_mem y.toNat KEYTREE) && y.toNat != 0x3a3) = true) :
    tbl_lookup LOWERCASE_TABLE y = none ∧ y ≠ 'Σ' := by
  rw [Bool.and_eq_true, Bool.not_eq_true'] at h
  exact ⟨table_lookup_none y h.1, ne_sigma_of_toNat h.2⟩

theorem chunk_outputs_ok (t : List (Char × List Char))
    (ht : (t.all (fun p => p.2.all (fun y =>
      !(tree_mem y.toNat KEYTREE) && y.toNat != 0x3a3))) = true) :
    ∀ p ∈ t, ∀ y ∈ p.2, tbl_lookup LOWERCASE_TABLE y = none ∧ y ≠ 'Σ' := by
  intro p hp y hy
  exact stable_of_tree y (List.all_eq_true.mp (List.all_eq_true.mp ht p hp) y hy)

theorem lower_outputs_ok : ∀ p ∈ LOWERCASE_TABLE, ∀ y ∈ p.2,
    tbl_lookup LOWERCASE_TABLE y = none ∧ y ≠ 'Σ' := by
  intro p hp
  rw [LOWERCASE_TABLE] at hp
  rcases List.mem_append.mp hp with h | hp
  · exact chunk_outputs_ok LT_0 outputs_sep_0 p h
  rcases List.mem_append.mp hp with h | hp
  · exact chunk_outputs_ok LT_1 outputs_sep_1 p h
  rcases List.mem_append.mp hp with h | hp
  · exact chunk_outputs_ok LT_2 outputs_sep_2 p h
  rcases List.mem_append.mp hp with h | hp
  · exact chunk_outputs_ok LT_3 outputs_sep_3 p h
  exact chunk_outputs_ok LT_4 outputs_sep_4 p hp

theorem tbl_lookup_some_mem : ∀ (t : List (Char × List Char)) (c : Char) (v : List Char),
    tbl_lookup t c = some v → (c, v) ∈ t
  | [], _, _ => by
    intro h
    cases h
  | (k, w) :: rest, c, v => by
    intro h
    simp only [tbl_lookup] at h
    by_cases he : c = k
    · rw [if_pos he] at h
      injection h with h'
      subst h'
      subst he
      exact List.mem_cons_self _ _
    · rw [if_neg he] at h
      exact List.mem_cons_of_mem _ (tbl_lookup_some_mem rest c v h)

/-! ### Characters produced by full lowercasing are fixed by it -/

theorem to_lowercase_go_mem (sf : List Char → List Char → Bool) :
    ∀ (l pre : List Char), ∀ y ∈ to_lowercase_go sf pre l,
      tbl_lookup LOWERCASE_TABLE y = none ∧ y ≠ 'Σ'
  | [], _, y, hy => by simp [to_lowercase_go] at hy
  | c :: rest, pre, y, hy => by
    simp only [to_lowercase_go] at hy
    rcases List.mem_append.mp hy with hy1 | hy2
    · by_cases hs : c = 'Σ'
      · rw [if_pos hs] at hy1
        by_cases hf : sf pre rest = true
        · rw [if_pos hf] at hy1
          rw [List.mem_singleton.mp hy1]
          exact stable_of_tree 'ς' (by decide)
        · rw [if_neg hf] at hy1
          rw [List.mem_singleton.mp hy1]
          exact stable_of_tree 'σ' (by decide)
      · rw [if_neg hs] at hy1
        simp only [to_lower_char] at hy1
        rcases hlk : tbl_lookup LOWERCASE_TABLE c with _ | out <;> rw [hlk] at hy1
        · rw [List.mem_singleton.mp hy1]
          exact ⟨hlk, hs⟩
        · exact lower_outputs_ok (c, out) (tbl_lookup_some_mem _ _ _ hlk) y hy1
    · exact to_lowercase_go_mem sf rest (c :: pre) y hy2

theorem to_lowercase_go_fixed (sf : List Char → List Char → Bool) :
    ∀ (l pre : List Char),
      (∀ c ∈ l, tbl_lookup LOWERCASE_TABLE c = none ∧ c ≠ 'Σ') →
      to_lowercase_go sf pre l = l
  | [], _, _ => rfl
  | c :: rest, pre, h => by
    obtain ⟨hn, hs⟩ := h c (by simp)
    simp only [to_lowercase_go, if_neg hs, to_lower_char, hn]
    rw [to_lowercase_go_fixed sf rest (c :: pre) (fun x hx => h x (by simp [hx]))]
    rfl

/-! ### Claim C8 -/

theorem nc_cases (y : Char) :
    normalize_char y = y ∨ normalize_char y ∈ ['o', 'i', 's', 'v', 'b'] := by
  rw [normalize_char]
  split_ifs <;> simp

theorem nc_idem (y : Char) : normalize_char (normalize_char y) = normalize_char y := by
  rcases nc_cases y with h | h
  · rw [h]
    exact h
  · simp only [List.mem_cons, List.not_mem_nil, or_false] at h
    rcases h with h | h | h | h | h <;> rw [h] <;> decide

theorem normU_mem (sf : List Char → List Char → Bool) (s : List Char) :
    ∀ y ∈ normalize_string_unicode sf s,
      y = 'w' ∨ y = 'm' ∨ ∃ x ∈ to_lowercase sf s, y = normalize_char x := by
  intro y hy
  rw [normalize_string_unicode] at hy
  rcases mem_replacePair _ _ _ _ y hy with hy1 | rfl
  · rcases mem_replacePair _ _ _ _ y hy1 with hy2 | rfl
    · obtain ⟨x, hx, rfl⟩ := List.mem_map.mp hy2
      exact Or.inr (Or.inr ⟨x, hx, rfl⟩)
    · exact Or.inr (Or.inl rfl)
  · exact Or.inl rfl

theorem normU_stable (sf : List Char → List Char → Bool) (s : List Char) :
    ∀ y ∈ normalize_string_unicode sf s,
      tbl_lookup LOWERCASE_TABLE y = none ∧ y ≠ 'Σ' := by
  intro y hy
  rcases normU_mem sf s y hy with rfl | rfl | ⟨x, hx, rfl⟩
  · exact stable_of_tree 'w' (by decide)
  · exact stable_of_tree 'm' (by decide)
  · rcases nc_cases x with h | h
    · rw [h]
      exact to_lowercase_go_mem sf s [] x hx
    · simp only [List.mem_cons, List.not_mem_nil, or_false] at h
      rcases h with h | h | h | h | h <;> rw [h] <;> exact stable_of_tree _ (by decide)

theorem normU_map_nc (sf : List Char → List Char → Bool) (s : List Char) :
    (normalize_string_unicode sf s).map normalize_char = normalize_string_unicode sf s := by
  apply map_eq_self_of
  intro y hy
  rcases normU_mem sf s y hy with rfl | rfl | ⟨x, _, rfl⟩
  · decide
  · decide
  · exact nc_idem x

/-- C8 (confirmed): `normalize_string` is idempotent — normalizing an
already-normalized string changes nothing.  Proved over the full model of
`str::to_lowercase` (complete Unicode lowercase mapping table, including
the multi-character expansion of `İ`, with the Final_Sigma context
decision quantified over all predicates `sf`, covering Rust's). -/
theorem claim8_normalize_unicode_idempotent (sf : List Char → List Char → Bool)
    (s : List Char) :
    normalize_string_unicode sf (normalize_string_unicode sf s)
      = normalize_string_unicode sf s := by
  have hlow : to_lowercase sf (normalize_string_unicode sf s)
      = normalize_string_unicode sf s :=
    to_lowercase_go_fixed sf (normalize_string_unicode sf s) [] (normU_stable sf s)
  have hrn : noPair 'r' 'n' (normalize_string_unicode sf s) = true := by
    rw [normalize_string_unicode]
    exact noPair_replacePair_other 'r' 'n' 'v' 'v' 'w' (by decide) (by decide) _
      (noPair_replacePair 'r' 'n' 'm' (by decide) (by decide) _)
  have hvv : noPair 'v' 'v' (normalize_string_unicode sf s) = true := by
    rw [normalize_string_unicode]
    exact noPair_replacePair 'v' 'v' 'w' (by decide) (by decide) _
  show replacePair 'v' 'v' 'w' (replacePair 'r' 'n' 'm'
      ((to_lowercase sf (normalize_string_unicode sf s)).map normalize_char))
    = normalize_string_unicode sf s
  rw [hlow, normU_map_nc sf s, replacePair_eq_self _ _ _ _ hrn,
    replacePair_eq_self _ _ _ _ hvv]

end HFI
